import Mathlib

/-!
# Helmet detection client: adaptive update scheduler

A shallow embedding of `static/js/helmet-app.js` (class `HelmetDetectionApp`).

* The application object and the part of the browser it talks to (live
  `setInterval` timers, requests in flight, pending `setTimeout` callbacks of
  the toggle button with the delay each was armed with, the DOM hooks) form
  one record, `App`. A timer or timeout is what was registered; the passing
  of time is an event of the loop.
* A JavaScript method that can throw is a function into `Res`, which keeps
  the state reached when the exception left the method.
* An `async` method is split at its `await`: the call (`updateFrame`,
  `updateLogs`, `toggleDetection`) issues the request, the continuation
  (`updateFrameResume`, ...) processes the response in one synchronous run.
* `config.frameUpdateInterval` is a rational. Every value the program
  computes from 100 (`100 * 1.5^k` for `k ≤ 9`, then 5000) is a dyadic
  rational with a short mantissa, so IEEE doubles compute it exactly.
* JSON numbers of the statistics block are naturals; console output and the
  fade-out timers of notifications are not modelled; `testNotification` and
  `updateChatId` (other buttons) are left out.
-/

namespace HelmetDetectionApp

/-! ## Data model -/

/-- A DOM element, reduced to the properties the program writes. `writes`
counts the property assignments made to the element. -/
structure Element where
  className : String
  innerHTML : String
  src : String
  display : String
  textContent : String
  disabled : Bool
  writes : Nat
deriving DecidableEq, Repr

/-- The four hooks of `this.elements.stats`. -/
structure StatsElements where
  totalDetections : Option Element
  violations : Option Element
  notifications : Option Element
  uptime : Option Element
deriving DecidableEq, Repr

/-- The record `this.elements`: each hook is what `getElementById` gave,
`none` for a missing element. -/
structure Elements where
  videoFeed : Option Element
  videoPlaceholder : Option Element
  detectionStatus : Option Element
  cameraStatus : Option Element
  connectionStatus : Option Element
  toggleDetection : Option Element
  testNotification : Option Element
  chatId : Option Element
  updateChatId : Option Element
  logsContainer : Option Element
  stats : StatsElements
deriving DecidableEq, Repr

/-- The record `this.config`. -/
structure Config where
  frameUpdateInterval : ℚ
  logsUpdateInterval : ℚ
  buttonCooldown : ℚ
  notificationDuration : ℚ
deriving DecidableEq

/-- The two periodic tasks. -/
inductive PollTask where
  | frame
  | logs
deriving DecidableEq, Repr

/-- A live interval timer: its handle, the period it was registered with and
the task its callback runs. -/
structure Timer where
  id : Nat
  period : ℚ
  task : PollTask
deriving DecidableEq

/-- The `stats` object of a frame payload. -/
structure Stats where
  total_detections : Nat
  violations_detected : Nat
  notifications_sent : Nat
  uptime : Nat
deriving DecidableEq, Repr

/-- The JSON body of `GET /api/frame`. A field the body lacks is `none`. -/
structure FramePayload where
  frame : Option String
  detection_active : Bool
  violation : Bool
  stats : Option Stats
  error : Option String
deriving DecidableEq, Repr

/-- What a `fetch('/api/frame')` ends in: a rejected fetch, or a response with
a status whose body parses as JSON (`some`) or not (`none`). -/
inductive FrameResponse where
  | networkError
  | http (status : Nat) (body : Option FramePayload)
deriving DecidableEq, Repr

/-- One entry of `GET /api/logs`. -/
structure LogEntry where
  timestamp : String
  level : String
  message : String
deriving DecidableEq, Repr

/-- What a `fetch('/api/logs')` ends in. -/
inductive LogsResponse where
  | networkError
  | http (status : Nat) (body : Option (List LogEntry))
deriving DecidableEq, Repr

/-- What the `POST /api/toggle_detection` ends in; the body is the field
`detection_active`. -/
inductive ToggleResponse where
  | networkError
  | http (status : Nat) (body : Option Bool)
deriving DecidableEq, Repr

/-- The application object together with the browser state it acts on. -/
structure App where
  isDetectionActive : Bool
  isConnected : Bool
  updateInterval : Option Nat
  logsInterval : Option Nat
  config : Config
  elements : Elements
  /-- live `setInterval` timers -/
  timers : List Timer
  /-- the next handle `setInterval` returns -/
  nextHandle : Nat
  /-- `/api/frame` requests in flight -/
  framePending : Nat
  /-- `/api/logs` requests in flight -/
  logsPending : Nat
  /-- `/api/toggle_detection` requests in flight -/
  togglePending : Nat
  /-- pending `setTimeout` callbacks that re-enable the toggle button: the
  delay each was armed with, oldest first -/
  cooldowns : List ℚ
  /-- requests sent so far, per endpoint -/
  frameRequests : Nat
  logsRequests : Nat
  toggleRequests : Nat
  /-- notifications shown so far: message and type -/
  notifications : List (String × String)
  /-- the entries rendered in `logsContainer` -/
  logsShown : List LogEntry
deriving DecidableEq

/-- The number of pending cooldown callbacks. -/
def App.cooldownPending (s : App) : Nat := s.cooldowns.length

/-- Outcome of a method that may throw: the state on normal return, or the
state in which the exception left the method. -/
inductive Res where
  | ok (s : App)
  | throw (s : App)
deriving DecidableEq

/-- The state a method ended in, thrown or not. -/
def Res.state : Res → App
  | .ok s => s
  | .throw s => s

/-- Whether the method threw. -/
def Res.threw : Res → Bool
  | .ok _ => false
  | .throw _ => true

/-! ## Browser primitives -/

/-- JavaScript truthiness of a string-valued field. -/
def truthyStr : Option String → Bool
  | some v => v != ""
  | none => false

/-- JavaScript truthiness of a timer handle. -/
def truthyHandle : Option Nat → Bool
  | some h => h != 0
  | none => false

/-- The `response.ok` flag: the status is in 200..299. -/
def responseOk (status : Nat) : Bool :=
  decide (200 ≤ status) && decide (status ≤ 299)

/-- The call `setInterval(callback, period)`: registers a timer under a fresh
handle and returns the handle. -/
def setInterval (s : App) (task : PollTask) (period : ℚ) : App × Nat :=
  ({ s with timers := s.timers ++ [{ id := s.nextHandle, period := period, task := task }],
            nextHandle := s.nextHandle + 1 }, s.nextHandle)

/-- The call `clearInterval(handle)`. -/
def clearInterval (s : App) (h : Nat) : App :=
  { s with timers := s.timers.filter (fun t => t.id != h) }

/-! ## Methods of `HelmetDetectionApp` -/

/-- The synchronous part of `updateFrame()`: the request is sent. -/
def updateFrame (s : App) : App :=
  { s with framePending := s.framePending + 1, frameRequests := s.frameRequests + 1 }

/-- The synchronous part of `updateLogs()`: the request is sent. -/
def updateLogs (s : App) : App :=
  { s with logsPending := s.logsPending + 1, logsRequests := s.logsRequests + 1 }

/-- Method `stopUpdates`. -/
def stopUpdates (s : App) : App :=
  let s1 :=
    if truthyHandle s.updateInterval then
      match s.updateInterval with
      | some h => { clearInterval s h with updateInterval := none }
      | none => s
    else s
  if truthyHandle s1.logsInterval then
    match s1.logsInterval with
    | some h => { clearInterval s1 h with logsInterval := none }
    | none => s1
  else s1

/-- Method `startUpdates`. -/
def startUpdates (s : App) : App :=
  let s1 := stopUpdates s
  let r2 := setInterval s1 PollTask.frame s1.config.frameUpdateInterval
  let s2 := { r2.1 with updateInterval := some r2.2 }
  let r3 := setInterval s2 PollTask.logs s2.config.logsUpdateInterval
  let s3 := { r3.1 with logsInterval := some r3.2 }
  updateLogs (updateFrame s3)

/-- Method `pauseUpdates`. -/
def pauseUpdates (s : App) : App := stopUpdates s

/-- Method `resumeUpdates`. -/
def resumeUpdates (s : App) : App := startUpdates s

/-- Method `destroy`. -/
def destroy (s : App) : App := stopUpdates s

/-- Method `setConnectionStatus`. The flag is written before the indicator
is touched, so a missing indicator throws with the flag already changed. -/
def setConnectionStatus (s : App) (connected : Bool) : Res :=
  if s.isConnected != connected then
    let s1 := { s with isConnected := connected }
    match s1.elements.connectionStatus with
    | none => .throw s1
    | some el =>
      if connected then
        let el1 := { el with className := "connection-status connected",
                             innerHTML := "<i class=\"fas fa-circle\"></i> Conectado",
                             writes := el.writes + 2 }
        .ok { s1 with elements := { s1.elements with connectionStatus := some el1 },
                      config := { s1.config with frameUpdateInterval := 100 } }
      else
        let el1 := { el with className := "connection-status disconnected",
                             innerHTML := "<i class=\"fas fa-circle\"></i> Desconectado",
                             writes := el.writes + 2 }
        .ok { s1 with elements := { s1.elements with connectionStatus := some el1 } }
  else .ok s

/-- Method `handleConnectionError`. -/
def handleConnectionError (s : App) : App :=
  if !s.isConnected then
    startUpdates { s with config := { s.config with
      frameUpdateInterval := min (s.config.frameUpdateInterval * 1.5) 5000 } }
  else s

/-- Method `updateDetectionStatus`. -/
def updateDetectionStatus (s : App) (isActive hasViolation : Bool) : App :=
  match s.elements.detectionStatus, s.elements.toggleDetection with
  | some st, some bt =>
    if isActive then
      let st1 :=
        if hasViolation then
          { st with className := "status-badge status-danger",
                    innerHTML := "<i class=\"fas fa-exclamation-triangle pulse\"></i> VIOLACIÓN DETECTADA",
                    writes := st.writes + 2 }
        else
          { st with className := "status-badge status-active",
                    innerHTML := "<i class=\"fas fa-check-circle\"></i> DETECCIÓN ACTIVA",
                    writes := st.writes + 2 }
      let bt1 := { bt with innerHTML := "<i class=\"fas fa-pause\"></i> Desactivar Detección",
                           className := "control-button btn-danger",
                           writes := bt.writes + 2 }
      { s with elements := { s.elements with detectionStatus := some st1,
                                             toggleDetection := some bt1 } }
    else
      let st1 := { st with className := "status-badge status-inactive",
                           innerHTML := "<i class=\"fas fa-times-circle\"></i> DETECCIÓN INACTIVA",
                           writes := st.writes + 2 }
      let bt1 := { bt with innerHTML := "<i class=\"fas fa-play\"></i> Activar Detección",
                           className := "control-button btn-primary",
                           writes := bt.writes + 2 }
      { s with elements := { s.elements with detectionStatus := some st1,
                                             toggleDetection := some bt1 } }
  | _, _ => s

/-- The expression `n.toString().padStart(2, '0')`. -/
def padStart2 (n : Nat) : String :=
  if (toString n).length < 2 then "0" ++ toString n else toString n

/-- Assignment to `textContent` of a hook that exists. -/
def setText (e : Option Element) (v : String) : Option Element :=
  match e with
  | some el => some { el with textContent := v, writes := el.writes + 1 }
  | none => none

/-- Method `updateStats`, called with a `stats` object. -/
def updateStats (s : App) (stats : Stats) : App :=
  let se := s.elements.stats
  let se1 := { se with totalDetections := setText se.totalDetections (toString stats.total_detections) }
  let se2 := { se1 with violations := setText se1.violations (toString stats.violations_detected) }
  let se3 := { se2 with notifications := setText se2.notifications (toString stats.notifications_sent) }
  let se4 :=
    if se3.uptime.isSome && stats.uptime != 0 then
      let hours := stats.uptime / 3600
      let minutes := (stats.uptime % 3600) / 60
      { se3 with uptime := setText se3.uptime (padStart2 hours ++ ":" ++ padStart2 minutes) }
    else se3
  { s with elements := { s.elements with stats := se4 } }

/-- The three assignments that show the image (the first statements under
`if (data.frame)`); a missing `videoFeed` or `videoPlaceholder` throws. -/
def showFrame (s : App) (frame : String) : Res :=
  match s.elements.videoFeed with
  | none => .throw s
  | some vf =>
    let vf1 := { vf with src := "data:image/jpeg;base64," ++ frame,
                         display := "block", writes := vf.writes + 2 }
    let s1 := { s with elements := { s.elements with videoFeed := some vf1 } }
    match s1.elements.videoPlaceholder with
    | none => .throw s1
    | some vp =>
      let vp1 := { vp with display := "none", writes := vp.writes + 1 }
      .ok { s1 with elements := { s1.elements with videoPlaceholder := some vp1 } }

/-- The statements that copy the detection state and the statistics of the
payload (between showing the image and `setConnectionStatus(true)`). -/
def applyPayload (s : App) (data : FramePayload) : App :=
  let s1 := { s with isDetectionActive := data.detection_active }
  let s2 := updateDetectionStatus s1 data.detection_active data.violation
  match data.stats with
  | some st => updateStats s2 st
  | none => s2

/-- The `try` block of `updateFrame` from the point where the fetch has
settled. `throw` is a jump to the `catch` block. -/
def updateFrameTry (s : App) (r : FrameResponse) : Res :=
  match r with
  | .networkError => .throw s
  | .http status body =>
    if !responseOk status then .throw s
    else
      match body with
      | none => .throw s
      | some data =>
        if truthyStr data.error then .throw s
        else if truthyStr data.frame then
          match showFrame s (data.frame.getD "") with
          | .throw s1 => .throw s1
          | .ok s1 => setConnectionStatus (applyPayload s1 data) true
        else .ok s

/-- The `catch` block of `updateFrame`. -/
def updateFrameCatch (s : App) : Res :=
  match setConnectionStatus s false with
  | .ok s1 => .ok (handleConnectionError s1)
  | .throw s1 => .throw s1

/-- The continuation of `updateFrame` once its fetch has settled with `r`:
the `try` block, and the `catch` block when it threw. -/
def updateFrameResume (s : App) (r : FrameResponse) : Res :=
  match updateFrameTry s r with
  | .ok s1 => .ok s1
  | .throw s1 => updateFrameCatch s1

/-- Method `updateLogsDisplay`, called with an array. -/
def updateLogsDisplay (s : App) (logs : List LogEntry) : App :=
  match s.elements.logsContainer with
  | none => s
  | some _ => { s with logsShown := logs }

/-- The continuation of `updateLogs` once its fetch has settled; every
failure is caught and only logged. -/
def updateLogsResume (s : App) (r : LogsResponse) : App :=
  match r with
  | .networkError => s
  | .http status body =>
    if !responseOk status then s
    else
      match body with
      | none => s
      | some logs => updateLogsDisplay s logs

/-- Method `setButtonLoading`, on the hook `button`. -/
def setButtonLoading (button : Option Element) (loading : Bool) (customText : Option String) :
    Option Element :=
  match button with
  | none => none
  | some b =>
    let b1 := { b with disabled := loading, writes := b.writes + 1 }
    if loading && truthyStr customText then
      some { b1 with innerHTML := customText.getD "", writes := b1.writes + 1 }
    else some b1

/-- Method `showNotification`. -/
def showNotification (s : App) (message type : String) : App :=
  { s with notifications := s.notifications ++ [(message, type)] }

/-- The synchronous part of `toggleDetection()`: the busy guard, then the
button is disabled and the request is sent. -/
def toggleDetection (s : App) : Res :=
  match s.elements.toggleDetection with
  | none => .throw s
  | some b =>
    if b.disabled then .ok s
    else
      let s1 := { s with elements := { s.elements with
        toggleDetection := setButtonLoading s.elements.toggleDetection true none } }
      .ok { s1 with togglePending := s1.togglePending + 1,
                    toggleRequests := s1.toggleRequests + 1 }

/-- The continuation of `toggleDetection` once its fetch has settled: the rest
of `try`, `catch`, and `finally`, which arms the cooldown timeout with the
delay `config.buttonCooldown`. -/
def toggleDetectionResume (s : App) (r : ToggleResponse) : App :=
  let failed := showNotification s "Error al cambiar estado de detección" "error"
  let s1 :=
    match r with
    | .networkError => failed
    | .http status body =>
      if !responseOk status then failed
      else
        match body with
        | none => failed
        | some active =>
          let s2 := { s with isDetectionActive := active }
          let s3 := updateFrame s2
          let status := if active then "activada" else "desactivada"
          showNotification s3 ("Detección " ++ status ++ " correctamente") "success"
  { s1 with cooldowns := s1.cooldowns ++ [s1.config.buttonCooldown] }

/-- The callback of the cooldown timeout: `setButtonLoading(button, false)`. -/
def cooldownCallback (s : App) : App :=
  { s with elements := { s.elements with
    toggleDetection := setButtonLoading s.elements.toggleDetection false none } }

/-- The state `init` starts from: the fields the constructor sets, with the
hooks found in the document. -/
def fresh (els : Elements) : App :=
  { isDetectionActive := false
    isConnected := false
    updateInterval := none
    logsInterval := none
    config := { frameUpdateInterval := 100, logsUpdateInterval := 2000,
                buttonCooldown := 1000, notificationDuration := 4000 }
    elements := els
    timers := []
    nextHandle := 1
    framePending := 0
    logsPending := 0
    togglePending := 0
    cooldowns := []
    frameRequests := 0
    logsRequests := 0
    toggleRequests := 0
    notifications := []
    logsShown := [] }

/-- Method `init`, after the hooks are looked up. -/
def init (s : App) : App := startUpdates s

/-- The expression `new HelmetDetectionApp()` in a document with hooks `els`. -/
def create (els : Elements) : App := init (fresh els)

/-! ## Events of the event loop -/

/-- What can happen to a running application: timer callbacks, settled
requests, visibility changes and calls made through the instance. -/
inductive Event where
  | frameTick
  | logsTick
  | frameDone (r : FrameResponse)
  | logsDone (r : LogsResponse)
  | startUpdates
  | stopUpdates
  | pauseUpdates
  | resumeUpdates
  | toggleDetection
  | toggleDone (r : ToggleResponse)
  | cooldownFire
  | forceUpdate
deriving DecidableEq

/-- One turn of the event loop; `none` when the event cannot happen in `s`
(no live timer of the task, no request in flight, no pending timeout). -/
def step (s : App) : Event → Option App
  | .frameTick =>
    if s.timers.any (fun t => t.task == PollTask.frame) then some (updateFrame s) else none
  | .logsTick =>
    if s.timers.any (fun t => t.task == PollTask.logs) then some (updateLogs s) else none
  | .frameDone r =>
    if s.framePending = 0 then none
    else some (updateFrameResume { s with framePending := s.framePending - 1 } r).state
  | .logsDone r =>
    if s.logsPending = 0 then none
    else some (updateLogsResume { s with logsPending := s.logsPending - 1 } r)
  | .startUpdates => some (startUpdates s)
  | .stopUpdates => some (stopUpdates s)
  | .pauseUpdates => some (pauseUpdates s)
  | .resumeUpdates => some (resumeUpdates s)
  | .toggleDetection => some (toggleDetection s).state
  | .toggleDone r =>
    if s.togglePending = 0 then none
    else some (toggleDetectionResume { s with togglePending := s.togglePending - 1 } r)
  | .cooldownFire =>
    match s.cooldowns with
    | [] => none
    | _ :: rest => some (cooldownCallback { s with cooldowns := rest })
  | .forceUpdate => some (updateFrame s)

/-- Runs a sequence of events from `s`. -/
def run (s : App) : List Event → Option App
  | [] => some s
  | e :: es =>
    match step s e with
    | some s1 => run s1 es
    | none => none

/-- The states the application can be in between two turns of the event
loop, in a document with hooks `els`. -/
inductive Reachable (els : Elements) : App → Prop where
  | start : Reachable els (create els)
  | next {s s1 : App} (e : Event) : Reachable els s → step s e = some s1 → Reachable els s1

/-- A frame poll that `updateFrame` treats as failed before it looks at the
frame: rejected fetch, non-2xx status, unparsable body, or an `error` field. -/
def FrameResponse.failed : FrameResponse → Bool
  | .networkError => true
  | .http status body =>
    !responseOk status ||
      (match body with
       | none => true
       | some data => truthyStr data.error)

/-- An element as the document first has it. -/
def blank : Element :=
  { className := "", innerHTML := "", src := "", display := "", textContent := "",
    disabled := false, writes := 0 }

/-- A document with every hook present. -/
def allPresent : Elements :=
  { videoFeed := some blank, videoPlaceholder := some blank, detectionStatus := some blank,
    cameraStatus := some blank, connectionStatus := some blank, toggleDetection := some blank,
    testNotification := some blank, chatId := some blank, updateChatId := some blank,
    logsContainer := some blank,
    stats := { totalDetections := some blank, violations := some blank,
               notifications := some blank, uptime := some blank } }

/-- A frame payload with a frame and nothing wrong. -/
def goodPayload : FramePayload :=
  { frame := some "AAAA", detection_active := true, violation := false, stats := none,
    error := none }

/-- A 2xx payload without `error` and without a frame. -/
def noFramePayload : FramePayload :=
  { frame := none, detection_active := false, violation := false, stats := none,
    error := none }

/-- A document that lacks the `videoFeed` element. -/
def noVideoFeed : Elements := { allPresent with videoFeed := none }

/-- A document that lacks the `connectionStatus` element. -/
def noIndicator : Elements := { allPresent with connectionStatus := none }

/-- The part of the state the scheduler owns. -/
structure Sched where
  timers : List Timer
  updateInterval : Option Nat
  logsInterval : Option Nat
  nextHandle : Nat
deriving DecidableEq

/-- The scheduler part of a state. -/
def sched (s : App) : Sched :=
  { timers := s.timers, updateInterval := s.updateInterval, logsInterval := s.logsInterval,
    nextHandle := s.nextHandle }

/-- The live timers of one task. -/
def liveTimers (s : App) (task : PollTask) : List Timer :=
  s.timers.filter (fun t => t.task == task)

/-- The interval is within the baseline and the ceiling. -/
def RateBounded (s : App) : Prop :=
  100 ≤ s.config.frameUpdateInterval ∧ s.config.frameUpdateInterval ≤ 5000

/-- The interval is within its bounds and at the baseline while connected. -/
def RateOk (s : App) : Prop :=
  RateBounded s ∧ (s.isConnected = true → s.config.frameUpdateInterval = 100)

/-- Shape of the scheduler between two turns: stopped with no live timer, or
running with exactly the two timers the handles name. -/
def TimersOk (s : App) : Prop :=
  1 ≤ s.nextHandle ∧
  ((s.updateInterval = none ∧ s.logsInterval = none ∧ s.timers = []) ∨
   (∃ h p q, 1 ≤ h ∧ h + 2 ≤ s.nextHandle ∧ s.updateInterval = some h ∧
      s.logsInterval = some (h + 1) ∧
      s.timers = [{ id := h, period := p, task := PollTask.frame },
                  { id := h + 1, period := q, task := PollTask.logs }]))

/-- The toggle button exists and is disabled. -/
def toggleBusy (s : App) : Bool :=
  match s.elements.toggleDetection with
  | some b => b.disabled
  | none => false

/-- What the rendering steps of a frame poll leave alone: scheduler, rate,
connection flag and indicator, and the bookkeeping of requests. -/
structure Core where
  sched : Sched
  config : Config
  isConnected : Bool
  connectionStatus : Option Element
  framePending : Nat
  logsPending : Nat
  togglePending : Nat
  cooldownPending : Nat
  frameRequests : Nat
  logsRequests : Nat
  toggleRequests : Nat
  notifications : List (String × String)
  logsShown : List LogEntry
  busy : Bool

/-- The core part of a state. -/
def core (s : App) : Core :=
  { sched := sched s, config := s.config, isConnected := s.isConnected,
    connectionStatus := s.elements.connectionStatus,
    framePending := s.framePending, logsPending := s.logsPending,
    togglePending := s.togglePending, cooldownPending := s.cooldownPending,
    frameRequests := s.frameRequests, logsRequests := s.logsRequests,
    toggleRequests := s.toggleRequests, notifications := s.notifications,
    logsShown := s.logsShown, busy := toggleBusy s }

/-- The part of the state the busy guard of the toggle button depends on. -/
structure ToggleView where
  togglePending : Nat
  cooldownPending : Nat
  toggleRequests : Nat
  busy : Bool
deriving DecidableEq

/-- The toggle part of a state. -/
def toggleView (s : App) : ToggleView :=
  { togglePending := s.togglePending, cooldownPending := s.cooldownPending,
    toggleRequests := s.toggleRequests, busy := toggleBusy s }

/-- At most one toggle request or cooldown is outstanding, and the button is
disabled while one is. -/
def ToggleOk (s : App) : Prop :=
  s.togglePending + s.cooldownPending ≤ 1 ∧
    (1 ≤ s.togglePending + s.cooldownPending → toggleBusy s = true)

/-- The logs period is the one the constructor set, and the connection
indicator exists whenever the application is connected. -/
def PollOk (s : App) : Prop :=
  s.config.logsUpdateInterval = 2000 ∧
    (s.isConnected = true → s.elements.connectionStatus.isSome = true)

/-- The bookkeeping of the two polling endpoints. -/
structure Requests where
  framePending : Nat
  logsPending : Nat
  frameRequests : Nat
  logsRequests : Nat
deriving DecidableEq

/-- The polling bookkeeping of a state. -/
def requests (s : App) : Requests :=
  { framePending := s.framePending, logsPending := s.logsPending,
    frameRequests := s.frameRequests, logsRequests := s.logsRequests }

/-! ## Lemmas on the methods -/

theorem stopUpdates_frame (s : App) :
    (stopUpdates s).config = s.config ∧ (stopUpdates s).isConnected = s.isConnected ∧
    (stopUpdates s).isDetectionActive = s.isDetectionActive ∧
    (stopUpdates s).elements = s.elements ∧
    (stopUpdates s).framePending = s.framePending ∧
    (stopUpdates s).cooldownPending = s.cooldownPending ∧
    (stopUpdates s).togglePending = s.togglePending ∧
    (stopUpdates s).nextHandle = s.nextHandle := by
  unfold stopUpdates clearInterval App.cooldownPending
  cases hu : s.updateInterval <;> cases hl : s.logsInterval <;>
    simp [truthyHandle] <;> (repeat (split <;> simp_all))

theorem startUpdates_frame (s : App) :
    (startUpdates s).config = s.config ∧ (startUpdates s).isConnected = s.isConnected ∧
    (startUpdates s).isDetectionActive = s.isDetectionActive ∧
    (startUpdates s).elements = s.elements ∧
    (startUpdates s).framePending = s.framePending + 1 ∧
    (startUpdates s).cooldownPending = s.cooldownPending ∧
    (startUpdates s).togglePending = s.togglePending := by
  obtain ⟨h1, h2, h3, h4, h5, h6, h7, _⟩ := stopUpdates_frame s
  simp only [App.cooldownPending] at h6 ⊢
  simp [startUpdates, setInterval, updateFrame, updateLogs, h1, h2, h3, h4, h5, h6, h7]

theorem handleConnectionError_disconnected (s : App) (h : s.isConnected = false) :
    handleConnectionError s = startUpdates { s with config := { s.config with
      frameUpdateInterval := min (s.config.frameUpdateInterval * 1.5) 5000 } } := by
  simp [handleConnectionError, h]

theorem handleConnectionError_frame (s : App) :
    (handleConnectionError s).isConnected = s.isConnected ∧
    (handleConnectionError s).isDetectionActive = s.isDetectionActive ∧
    (handleConnectionError s).elements = s.elements ∧
    (handleConnectionError s).cooldownPending = s.cooldownPending ∧
    (handleConnectionError s).togglePending = s.togglePending := by
  unfold handleConnectionError
  split
  · obtain ⟨_, h2, h3, h4, _, h6, h7⟩ := startUpdates_frame { s with config := { s.config with
      frameUpdateInterval := min (s.config.frameUpdateInterval * 1.5) 5000 } }
    exact ⟨h2, h3, h4, h6, h7⟩
  · simp

theorem handleConnectionError_interval (s : App) (h : s.isConnected = false) :
    (handleConnectionError s).config.frameUpdateInterval =
      min (s.config.frameUpdateInterval * 1.5) 5000 ∧
    (handleConnectionError s).framePending = s.framePending + 1 := by
  rw [handleConnectionError_disconnected s h]
  obtain ⟨h1, _, _, _, h5, _⟩ := startUpdates_frame { s with config := { s.config with
      frameUpdateInterval := min (s.config.frameUpdateInterval * 1.5) 5000 } }
  rw [h1, h5]
  exact ⟨rfl, rfl⟩

theorem setConnectionStatus_same (s : App) : setConnectionStatus s s.isConnected = .ok s := by
  simp [setConnectionStatus]

theorem setConnectionStatus_frame (s : App) (v : Bool) :
    sched (setConnectionStatus s v).state = sched s ∧
    (setConnectionStatus s v).state.isConnected = v ∧
    (setConnectionStatus s v).state.isDetectionActive = s.isDetectionActive ∧
    (setConnectionStatus s v).state.elements.detectionStatus = s.elements.detectionStatus ∧
    (setConnectionStatus s v).state.elements.toggleDetection = s.elements.toggleDetection ∧
    (setConnectionStatus s v).state.framePending = s.framePending ∧
    (setConnectionStatus s v).state.cooldownPending = s.cooldownPending ∧
    (setConnectionStatus s v).state.togglePending = s.togglePending := by
  unfold setConnectionStatus sched App.cooldownPending
  cases hc : s.elements.connectionStatus <;> cases v <;> cases hi : s.isConnected <;>
    simp [Res.state, hc, hi]

theorem setConnectionStatus_false_config (s : App) :
    (setConnectionStatus s false).state.config = s.config := by
  unfold setConnectionStatus
  cases hc : s.elements.connectionStatus <;> cases hi : s.isConnected <;>
    simp [Res.state, hc, hi]

theorem setConnectionStatus_true_bounded (s : App) (h : RateBounded s) :
    RateBounded (setConnectionStatus s true).state := by
  unfold setConnectionStatus RateBounded
  cases hc : s.elements.connectionStatus <;> cases hi : s.isConnected <;>
    simp [Res.state, hc, hi] <;> first | exact h | norm_num

theorem setConnectionStatus_true_ok (s : App) (h : RateOk s) (s1 : App)
    (h1 : setConnectionStatus s true = .ok s1) :
    s1.isConnected = true ∧ s1.config.frameUpdateInterval = 100 := by
  unfold setConnectionStatus at h1
  cases hc : s.elements.connectionStatus <;> cases hi : s.isConnected <;>
    simp [hc, hi] at h1
  · subst h1; exact ⟨hi, h.2 hi⟩
  · subst h1; simp
  · subst h1; exact ⟨hi, h.2 hi⟩

theorem setConnectionStatus_true_present (s : App) (el : Element)
    (hc : s.elements.connectionStatus = some el) :
    ∃ s1, setConnectionStatus s true = .ok s1 := by
  unfold setConnectionStatus
  cases hi : s.isConnected <;> simp [hc]

theorem showFrame_core (s : App) (frame : String) :
    core (showFrame s frame).state = core s := by
  unfold showFrame
  cases hv : s.elements.videoFeed <;> cases hp : s.elements.videoPlaceholder <;>
    simp [Res.state, hp, core, sched, toggleBusy, App.cooldownPending]

theorem showFrame_detection (s : App) (frame : String) :
    (showFrame s frame).state.isDetectionActive = s.isDetectionActive ∧
    (showFrame s frame).state.elements.detectionStatus = s.elements.detectionStatus ∧
    (showFrame s frame).state.elements.toggleDetection = s.elements.toggleDetection := by
  unfold showFrame
  cases hv : s.elements.videoFeed <;> cases hp : s.elements.videoPlaceholder <;>
    simp [Res.state, hp]

theorem showFrame_present (s : App) (frame : String) (vf vp : Element)
    (hv : s.elements.videoFeed = some vf) (hp : s.elements.videoPlaceholder = some vp) :
    ∃ s1, showFrame s frame = .ok s1 := by
  simp [showFrame, hv, hp]

theorem updateDetectionStatus_core (s : App) (a v : Bool) :
    core (updateDetectionStatus s a v) = core s := by
  unfold updateDetectionStatus
  cases hd : s.elements.detectionStatus <;> cases ht : s.elements.toggleDetection <;>
    cases a <;> cases v <;> simp [core, sched, toggleBusy, ht, App.cooldownPending]

theorem updateStats_core (s : App) (st : Stats) : core (updateStats s st) = core s := by
  simp [updateStats, core, sched, toggleBusy, App.cooldownPending]

theorem applyPayload_core (s : App) (data : FramePayload) :
    core (applyPayload s data) = core s := by
  unfold applyPayload
  cases data.stats <;> simp [updateStats_core, updateDetectionStatus_core] <;>
    simp [core, sched, toggleBusy, App.cooldownPending]

theorem updateFrameTry_failed (s : App) (r : FrameResponse) (h : r.failed = true) :
    updateFrameTry s r = .throw s := by
  unfold updateFrameTry
  cases r with
  | networkError => rfl
  | http status body =>
    cases body with
    | none => simp
    | some data =>
      simp only [FrameResponse.failed, Bool.or_eq_true] at h
      rcases h with h | h <;> simp [h]

theorem updateFrameTry_noFrame (s : App) (status : Nat) (data : FramePayload)
    (hs : responseOk status = true) (he : truthyStr data.error = false)
    (hf : truthyStr data.frame = false) :
    updateFrameTry s (.http status (some data)) = .ok s := by
  simp [updateFrameTry, hs, he, hf]

theorem updateFrameTry_frame (s : App) (status : Nat) (data : FramePayload)
    (hs : responseOk status = true) (he : truthyStr data.error = false)
    (hf : truthyStr data.frame = true) :
    updateFrameTry s (.http status (some data)) =
      match showFrame s (data.frame.getD "") with
      | .throw s1 => .throw s1
      | .ok s1 => setConnectionStatus (applyPayload s1 data) true := by
  simp [updateFrameTry, hs, he, hf]

/-- Every response is a failure, a payload without a frame, or a payload
with one. -/
theorem frameResponse_cases (r : FrameResponse) :
    r.failed = true ∨
    ∃ status data, r = .http status (some data) ∧ responseOk status = true ∧
      truthyStr data.error = false := by
  cases r with
  | networkError => left; rfl
  | http status body =>
    cases body with
    | none => left; simp [FrameResponse.failed]
    | some data =>
      cases hs : responseOk status
      · left; simp [FrameResponse.failed, hs]
      · cases he : truthyStr data.error
        · right; exact ⟨status, data, rfl, hs, he⟩
        · left; simp [FrameResponse.failed, he]

/-! ## The rate controller -/

theorem rateBounded_of_core {a b : App} (h : core a = core b) (hb : RateBounded b) :
    RateBounded a := by
  have hc : a.config = b.config := congrArg Core.config h
  unfold RateBounded
  rw [hc]
  exact hb

theorem rateOk_of_core {a b : App} (h : core a = core b) (hb : RateOk b) : RateOk a := by
  have hc : a.config = b.config := congrArg Core.config h
  have hi : a.isConnected = b.isConnected := congrArg Core.isConnected h
  refine ⟨rateBounded_of_core h hb.1, ?_⟩
  rw [hc, hi]
  exact hb.2

theorem backoff_bounds (x : ℚ) (h1 : 100 ≤ x) (h2 : x ≤ 5000) :
    100 ≤ min (x * 1.5) 5000 ∧ min (x * 1.5) 5000 ≤ 5000 ∧ x ≤ min (x * 1.5) 5000 := by
  refine ⟨le_min ?_ (by norm_num), min_le_right _ _, le_min ?_ h2⟩
  · norm_num; linarith
  · norm_num; linarith

theorem updateFrameCatch_disconnected (s : App) (h : s.isConnected = false) :
    updateFrameCatch s = .ok (handleConnectionError s) := by
  have hs := setConnectionStatus_same s
  rw [h] at hs
  simp [updateFrameCatch, hs]

theorem updateFrameCatch_rateOk (s : App) (h : RateBounded s) :
    RateOk (updateFrameCatch s).state := by
  obtain ⟨_, hi, _⟩ := setConnectionStatus_frame s false
  have hc := setConnectionStatus_false_config s
  unfold updateFrameCatch
  cases hr : setConnectionStatus s false with
  | throw s1 =>
    rw [hr] at hi hc
    simp only [Res.state] at hi hc ⊢
    refine ⟨?_, ?_⟩
    · unfold RateBounded; rw [hc]; exact h
    · rw [hi]; intro hf; cases hf
  | ok s1 =>
    rw [hr] at hi hc
    simp only [Res.state] at hi hc ⊢
    obtain ⟨hx, _⟩ := handleConnectionError_interval s1 hi
    obtain ⟨hy, _⟩ := handleConnectionError_frame s1
    have hb := backoff_bounds s1.config.frameUpdateInterval (by rw [hc]; exact h.1)
      (by rw [hc]; exact h.2)
    refine ⟨?_, ?_⟩
    · unfold RateBounded; rw [hx]; exact ⟨hb.1, hb.2.1⟩
    · rw [hy, hi]; intro hf; cases hf

theorem updateFrameTry_bounded (s : App) (r : FrameResponse) (h : RateBounded s) :
    RateBounded (updateFrameTry s r).state := by
  rcases frameResponse_cases r with hf | ⟨status, data, rfl, hs, he⟩
  · rw [updateFrameTry_failed s r hf]; exact h
  · cases hfr : truthyStr data.frame
    · rw [updateFrameTry_noFrame s status data hs he hfr]; exact h
    · rw [updateFrameTry_frame s status data hs he hfr]
      have hc := showFrame_core s (data.frame.getD "")
      cases hsf : showFrame s (data.frame.getD "") with
      | throw s1 =>
        rw [hsf] at hc
        exact rateBounded_of_core hc h
      | ok s1 =>
        rw [hsf] at hc
        simp only
        apply setConnectionStatus_true_bounded
        exact rateBounded_of_core ((applyPayload_core s1 data).trans hc) h

theorem updateFrameTry_ok_rateOk (s : App) (r : FrameResponse) (h : RateOk s) (s1 : App)
    (h1 : updateFrameTry s r = .ok s1) : RateOk s1 := by
  rcases frameResponse_cases r with hf | ⟨status, data, rfl, hs, he⟩
  · rw [updateFrameTry_failed s r hf] at h1; cases h1
  · cases hfr : truthyStr data.frame
    · rw [updateFrameTry_noFrame s status data hs he hfr] at h1
      cases h1; exact h
    · rw [updateFrameTry_frame s status data hs he hfr] at h1
      have hc := showFrame_core s (data.frame.getD "")
      cases hsf : showFrame s (data.frame.getD "") with
      | throw s2 => rw [hsf] at h1; cases h1
      | ok s2 =>
        rw [hsf] at hc h1
        simp only at h1
        have hr : RateOk (applyPayload s2 data) :=
          rateOk_of_core ((applyPayload_core s2 data).trans hc) h
        obtain ⟨hi, hx⟩ := setConnectionStatus_true_ok _ hr s1 h1
        refine ⟨?_, fun _ => hx⟩
        unfold RateBounded
        rw [hx]
        norm_num

theorem updateFrameResume_rateOk (s : App) (r : FrameResponse) (h : RateOk s) :
    RateOk (updateFrameResume s r).state := by
  unfold updateFrameResume
  cases ht : updateFrameTry s r with
  | ok s1 => exact updateFrameTry_ok_rateOk s r h s1 ht
  | throw s1 =>
    have hb := updateFrameTry_bounded s r h.1
    rw [ht] at hb
    exact updateFrameCatch_rateOk s1 hb

theorem updateFrameResume_failed (s : App) (r : FrameResponse) (hr : r.failed = true)
    (hc : s.isConnected = false) :
    updateFrameResume s r = .ok (handleConnectionError s) := by
  unfold updateFrameResume
  rw [updateFrameTry_failed s r hr]
  exact updateFrameCatch_disconnected s hc

/-! ## The scheduler -/

theorem timersOk_congr {a b : App} (h : sched a = sched b) (hb : TimersOk b) : TimersOk a := by
  have h1 : a.timers = b.timers := congrArg Sched.timers h
  have h2 : a.updateInterval = b.updateInterval := congrArg Sched.updateInterval h
  have h3 : a.logsInterval = b.logsInterval := congrArg Sched.logsInterval h
  have h4 : a.nextHandle = b.nextHandle := congrArg Sched.nextHandle h
  unfold TimersOk
  rw [h1, h2, h3, h4]
  exact hb

theorem stopUpdates_sched (s : App) (h : TimersOk s) :
    sched (stopUpdates s) =
      { timers := [], updateInterval := none, logsInterval := none,
        nextHandle := s.nextHandle } := by
  obtain ⟨_, h | ⟨a, p, q, ha, _, hu, hl, ht⟩⟩ := h
  · obtain ⟨hu, hl, ht⟩ := h
    simp [stopUpdates, sched, hu, hl, ht, truthyHandle]
  · have ha0 : a ≠ 0 := by omega
    simp [stopUpdates, sched, clearInterval, hu, hl, ht, truthyHandle, ha0]

theorem startUpdates_sched (s : App) (h : TimersOk s) :
    sched (startUpdates s) =
      { timers := [{ id := s.nextHandle, period := s.config.frameUpdateInterval,
                     task := PollTask.frame },
                   { id := s.nextHandle + 1, period := s.config.logsUpdateInterval,
                     task := PollTask.logs }],
        updateInterval := some s.nextHandle, logsInterval := some (s.nextHandle + 1),
        nextHandle := s.nextHandle + 2 } := by
  have hs := stopUpdates_sched s h
  obtain ⟨hc, _⟩ := stopUpdates_frame s
  have h1 : (stopUpdates s).timers = [] := congrArg Sched.timers hs
  have h4 : (stopUpdates s).nextHandle = s.nextHandle := congrArg Sched.nextHandle hs
  simp [startUpdates, setInterval, updateFrame, updateLogs, sched, h1, h4, hc]

theorem stopUpdates_timersOk (s : App) (h : TimersOk s) : TimersOk (stopUpdates s) := by
  have hs := stopUpdates_sched s h
  have h1 : (stopUpdates s).timers = [] := congrArg Sched.timers hs
  have h2 : (stopUpdates s).updateInterval = none := congrArg Sched.updateInterval hs
  have h3 : (stopUpdates s).logsInterval = none := congrArg Sched.logsInterval hs
  have h4 : (stopUpdates s).nextHandle = s.nextHandle := congrArg Sched.nextHandle hs
  exact ⟨by rw [h4]; exact h.1, Or.inl ⟨h2, h3, h1⟩⟩

theorem startUpdates_timersOk (s : App) (h : TimersOk s) : TimersOk (startUpdates s) := by
  have hs := startUpdates_sched s h
  have h1 := congrArg Sched.timers hs
  have h2 := congrArg Sched.updateInterval hs
  have h3 := congrArg Sched.logsInterval hs
  have h4 := congrArg Sched.nextHandle hs
  simp only [sched] at h1 h2 h3 h4
  refine ⟨by rw [h4]; omega, Or.inr ⟨s.nextHandle, _, _, h.1, by rw [h4], h2, h3, h1⟩⟩

theorem handleConnectionError_timersOk (s : App) (h : TimersOk s) :
    TimersOk (handleConnectionError s) := by
  unfold handleConnectionError
  split
  · exact startUpdates_timersOk _ h
  · exact h

theorem updateFrameTry_sched (s : App) (r : FrameResponse) :
    sched (updateFrameTry s r).state = sched s := by
  rcases frameResponse_cases r with hf | ⟨status, data, rfl, hs, he⟩
  · rw [updateFrameTry_failed s r hf]; rfl
  · cases hfr : truthyStr data.frame
    · rw [updateFrameTry_noFrame s status data hs he hfr]; rfl
    · rw [updateFrameTry_frame s status data hs he hfr]
      have hc := congrArg Core.sched (showFrame_core s (data.frame.getD ""))
      cases hsf : showFrame s (data.frame.getD "") with
      | throw s1 => rw [hsf] at hc; exact hc
      | ok s1 =>
        rw [hsf] at hc
        simp only
        rw [(setConnectionStatus_frame _ true).1]
        exact (congrArg Core.sched (applyPayload_core s1 data)).trans hc

theorem updateFrameResume_timersOk (s : App) (r : FrameResponse) (h : TimersOk s) :
    TimersOk (updateFrameResume s r).state := by
  have ht := updateFrameTry_sched s r
  unfold updateFrameResume
  cases hr : updateFrameTry s r with
  | ok s1 => rw [hr] at ht; exact timersOk_congr ht h
  | throw s1 =>
    rw [hr] at ht
    have h1 : TimersOk s1 := timersOk_congr ht h
    have hs := (setConnectionStatus_frame s1 false).1
    simp only [updateFrameCatch]
    cases hc : setConnectionStatus s1 false with
    | throw s2 => rw [hc] at hs; exact timersOk_congr hs h1
    | ok s2 =>
      rw [hc] at hs
      exact handleConnectionError_timersOk s2 (timersOk_congr hs h1)

theorem updateLogsResume_core (s : App) (r : LogsResponse) :
    sched (updateLogsResume s r) = sched s ∧ (updateLogsResume s r).config = s.config ∧
    (updateLogsResume s r).isConnected = s.isConnected ∧
    (updateLogsResume s r).elements = s.elements ∧
    (updateLogsResume s r).cooldownPending = s.cooldownPending ∧
    (updateLogsResume s r).togglePending = s.togglePending := by
  unfold updateLogsResume updateLogsDisplay
  cases r with
  | networkError => simp
  | http status body =>
    cases body with
    | none => simp
    | some logs =>
      cases hrs : responseOk status <;> cases hl : s.elements.logsContainer <;>
        simp [sched, hl, hrs, App.cooldownPending]

theorem toggleDetection_core (s : App) :
    sched (toggleDetection s).state = sched s ∧ (toggleDetection s).state.config = s.config ∧
    (toggleDetection s).state.isConnected = s.isConnected := by
  unfold toggleDetection
  cases s.elements.toggleDetection with
  | none => simp [Res.state]
  | some b => cases hb : b.disabled <;> simp [Res.state, sched, hb]

theorem toggleDetectionResume_core (s : App) (r : ToggleResponse) :
    sched (toggleDetectionResume s r) = sched s ∧
    (toggleDetectionResume s r).config = s.config ∧
    (toggleDetectionResume s r).isConnected = s.isConnected ∧
    (toggleDetectionResume s r).elements = s.elements := by
  unfold toggleDetectionResume showNotification updateFrame
  cases r with
  | networkError => simp [sched]
  | http status body =>
    cases body with
    | none => cases hrs : responseOk status <;> simp [sched, hrs]
    | some active => cases hrs : responseOk status <;> simp [sched, hrs]

/-! ## Invariants of the event loop -/

theorem step_timersOk (s s1 : App) (e : Event) (h : TimersOk s) (hs : step s e = some s1) :
    TimersOk s1 := by
  cases e with
  | frameTick =>
    simp only [step] at hs
    split at hs
    · cases hs; exact h
    · cases hs
  | logsTick =>
    simp only [step] at hs
    split at hs
    · cases hs; exact h
    · cases hs
  | frameDone r =>
    simp only [step] at hs
    split at hs
    · cases hs
    · cases hs; exact updateFrameResume_timersOk _ r h
  | logsDone r =>
    simp only [step] at hs
    split at hs
    · cases hs
    · cases hs; exact timersOk_congr (updateLogsResume_core _ r).1 h
  | startUpdates => cases hs; exact startUpdates_timersOk s h
  | stopUpdates => cases hs; exact stopUpdates_timersOk s h
  | pauseUpdates => cases hs; exact stopUpdates_timersOk s h
  | resumeUpdates => cases hs; exact startUpdates_timersOk s h
  | toggleDetection => cases hs; exact timersOk_congr (toggleDetection_core s).1 h
  | toggleDone r =>
    simp only [step] at hs
    split at hs
    · cases hs
    · cases hs; exact timersOk_congr (toggleDetectionResume_core _ r).1 h
  | cooldownFire =>
    simp only [step] at hs
    split at hs
    · cases hs
    · cases hs; exact h
  | forceUpdate => cases hs; exact h

theorem create_timersOk (els : Elements) : TimersOk (create els) := by
  apply startUpdates_timersOk
  exact ⟨le_refl 1, Or.inl ⟨rfl, rfl, rfl⟩⟩

theorem reachable_timersOk (els : Elements) (s : App) (h : Reachable els s) : TimersOk s := by
  induction h with
  | start => exact create_timersOk els
  | next e _ hs ih => exact step_timersOk _ _ e ih hs

theorem rateOk_congr {a b : App} (hc : a.config = b.config)
    (hi : a.isConnected = b.isConnected) (hb : RateOk b) : RateOk a := by
  unfold RateOk RateBounded
  rw [hc, hi]
  exact hb

theorem step_rateOk (s s1 : App) (e : Event) (h : RateOk s) (hs : step s e = some s1) :
    RateOk s1 := by
  cases e with
  | frameTick =>
    simp only [step] at hs
    split at hs
    · cases hs; exact h
    · cases hs
  | logsTick =>
    simp only [step] at hs
    split at hs
    · cases hs; exact h
    · cases hs
  | frameDone r =>
    simp only [step] at hs
    split at hs
    · cases hs
    · cases hs; exact updateFrameResume_rateOk _ r h
  | logsDone r =>
    simp only [step] at hs
    split at hs
    · cases hs
    · cases hs
      obtain ⟨_, hc, hi, _⟩ := updateLogsResume_core { s with logsPending := s.logsPending - 1 } r
      exact rateOk_congr hc hi h
  | startUpdates =>
    cases hs
    obtain ⟨hc, hi, _⟩ := startUpdates_frame s
    exact rateOk_congr hc hi h
  | stopUpdates =>
    cases hs
    obtain ⟨hc, hi, _⟩ := stopUpdates_frame s
    exact rateOk_congr hc hi h
  | pauseUpdates =>
    cases hs
    obtain ⟨hc, hi, _⟩ := stopUpdates_frame s
    exact rateOk_congr hc hi h
  | resumeUpdates =>
    cases hs
    obtain ⟨hc, hi, _⟩ := startUpdates_frame s
    exact rateOk_congr hc hi h
  | toggleDetection =>
    cases hs
    obtain ⟨_, hc, hi⟩ := toggleDetection_core s
    exact rateOk_congr hc hi h
  | toggleDone r =>
    simp only [step] at hs
    split at hs
    · cases hs
    · cases hs
      obtain ⟨_, hc, hi, _⟩ :=
        toggleDetectionResume_core { s with togglePending := s.togglePending - 1 } r
      exact rateOk_congr hc hi h
  | cooldownFire =>
    simp only [step] at hs
    split at hs
    · cases hs
    · cases hs; exact h
  | forceUpdate => cases hs; exact h

theorem create_rateOk (els : Elements) : RateOk (create els) := by
  obtain ⟨hc, hi, _⟩ := startUpdates_frame (fresh els)
  apply rateOk_congr hc hi
  refine ⟨⟨?_, ?_⟩, ?_⟩ <;> norm_num [fresh]

theorem reachable_rateOk (els : Elements) (s : App) (h : Reachable els s) : RateOk s := by
  induction h with
  | start => exact create_rateOk els
  | next e _ hs ih => exact step_rateOk _ _ e ih hs

/-! ## Backoff -/

theorem backoff_pow (x : ℚ) (k : ℕ) (hx : 0 ≤ x) :
    min (min (x * 1.5) 5000 * 1.5 ^ k) 5000 = min (x * 1.5 ^ (k + 1)) 5000 := by
  have hp : (1 : ℚ) ≤ 1.5 ^ k := one_le_pow₀ (by norm_num)
  have he : x * 1.5 ^ (k + 1) = x * 1.5 * 1.5 ^ k := by ring
  rw [he]
  rcases le_total (x * 1.5) 5000 with h | h
  · rw [min_eq_left h]
  · rw [min_eq_right h]
    have h1 : (5000 : ℚ) ≤ 5000 * 1.5 ^ k := by nlinarith
    have h2 : (5000 : ℚ) ≤ x * 1.5 * 1.5 ^ k := by nlinarith
    rw [min_eq_right h1, min_eq_right h2]

theorem backoff_last (y : ℚ) :
    min (min y 5000 * 1.5) 5000 = min (y * 1.5) 5000 := by
  rcases le_total y 5000 with h | h
  · rw [min_eq_left h]
  · rw [min_eq_right h]
    have h1 : (5000 : ℚ) ≤ 5000 * 1.5 := by norm_num
    have h2 : (5000 : ℚ) ≤ y * 1.5 := by norm_num; linarith
    rw [min_eq_right h1, min_eq_right h2]

theorem run_failures (rs : List FrameResponse) (hrs : ∀ r ∈ rs, r.failed = true) :
    ∀ s : App, s.isConnected = false → 1 ≤ s.framePending →
      0 ≤ s.config.frameUpdateInterval → s.config.frameUpdateInterval ≤ 5000 →
      ∃ s1, run s (rs.map Event.frameDone) = some s1 ∧ s1.isConnected = false ∧
        1 ≤ s1.framePending ∧
        s1.config.frameUpdateInterval =
          min (s.config.frameUpdateInterval * 1.5 ^ rs.length) 5000 ∧
        s1.elements = s.elements := by
  induction rs with
  | nil =>
    intro s hc hp _ hle
    refine ⟨s, rfl, hc, hp, ?_, rfl⟩
    simp [hle]
  | cons r rs ih =>
    intro s hc hp hx _
    have hr : r.failed = true := hrs r (List.mem_cons_self _ _)
    have hne : s.framePending ≠ 0 := by omega
    have hres := updateFrameResume_failed { s with framePending := s.framePending - 1 } r hr hc
    obtain ⟨hi, hf⟩ := handleConnectionError_interval
      { s with framePending := s.framePending - 1 } hc
    obtain ⟨hcon, _, hel, _⟩ :=
      handleConnectionError_frame { s with framePending := s.framePending - 1 }
    have hx1 : 0 ≤ min (s.config.frameUpdateInterval * 1.5) 5000 :=
      le_min (by norm_num; linarith) (by norm_num)
    obtain ⟨s1, h1, h2, h3, h4, h5⟩ :=
      ih (fun q hq => hrs q (List.mem_cons_of_mem _ hq))
        (handleConnectionError { s with framePending := s.framePending - 1 })
        (by rw [hcon]; exact hc) (by rw [hf]; omega) (by rw [hi]; exact hx1)
        (by rw [hi]; exact min_le_right _ _)
    refine ⟨s1, ?_, h2, h3, ?_, h5.trans hel⟩
    · simp only [List.map_cons, run, step, hne, if_false, hres, Res.state]
      exact h1
    · rw [h4, hi]
      simp only [List.length_cons]
      exact backoff_pow _ _ hx

theorem create_facts (els : Elements) :
    (create els).isConnected = false ∧ (create els).framePending = 1 ∧
    (create els).config.frameUpdateInterval = 100 ∧ (create els).elements = els ∧
    (create els).isDetectionActive = false := by
  obtain ⟨hc, hi, hd, he, hp, _⟩ := startUpdates_frame (fresh els)
  refine ⟨?_, ?_, ?_, ?_, ?_⟩
  · exact hi
  · exact hp
  · show (startUpdates (fresh els)).config.frameUpdateInterval = 100
    rw [hc]; rfl
  · exact he
  · exact hd

/-! ## The claims -/

/-- C1. Backoff closed form: from the state the constructor leaves, after any
`k` consecutive failed frame polls (each one in flight when it settles) the
interval is `min (100 * 1.5 ^ k) 5000` exactly; it is at most 5000, and one
more failed poll can always be processed and never lowers it. -/
theorem backoff_closed_form (els : Elements) (rs : List FrameResponse)
    (hrs : ∀ r ∈ rs, r.failed = true) :
    ∃ s, run (create els) (rs.map Event.frameDone) = some s ∧
      s.config.frameUpdateInterval = min (100 * 1.5 ^ rs.length) 5000 ∧
      s.config.frameUpdateInterval ≤ 5000 ∧
      ∀ r : FrameResponse, r.failed = true →
        ∃ s1, step s (Event.frameDone r) = some s1 ∧
          s1.config.frameUpdateInterval = min (100 * 1.5 ^ (rs.length + 1)) 5000 ∧
          s.config.frameUpdateInterval ≤ s1.config.frameUpdateInterval := by
  obtain ⟨h1, h2, h3, _⟩ := create_facts els
  obtain ⟨s, hrun, hc, hp, hx, _⟩ :=
    run_failures rs hrs (create els) h1 (by rw [h2]) (by rw [h3]; norm_num)
      (by rw [h3]; norm_num)
  rw [h3] at hx
  have hle : s.config.frameUpdateInterval ≤ 5000 := by rw [hx]; exact min_le_right _ _
  have hnn : (0 : ℚ) ≤ 100 * 1.5 ^ rs.length := by positivity
  have hge : 0 ≤ s.config.frameUpdateInterval := by rw [hx]; exact le_min hnn (by norm_num)
  refine ⟨s, hrun, hx, hle, ?_⟩
  intro r hr
  obtain ⟨s2, hrun2, _, _, hx2, _⟩ :=
    run_failures [r] (by intro q hq; rw [List.mem_singleton.mp hq]; exact hr) s hc hp hge hle
  simp only [List.map_cons, List.map_nil, run] at hrun2
  cases hst : step s (Event.frameDone r) with
  | none => rw [hst] at hrun2; cases hrun2
  | some s1 =>
    rw [hst] at hrun2
    simp only [Option.some.injEq] at hrun2
    subst hrun2
    simp only [List.length_singleton, pow_one] at hx2
    refine ⟨s1, rfl, ?_, ?_⟩
    · rw [hx2, hx, backoff_last, pow_succ, mul_assoc]
    · rw [hx2]
      exact le_min (by norm_num; linarith) hle

/-- Witness of C1: a rejected fetch, an HTTP 500 and a 2xx payload carrying
`error` are three failures; the closed form holds after them. -/
theorem backoff_closed_form_witness :
    (∀ r ∈ [FrameResponse.networkError, FrameResponse.http 500 none,
        FrameResponse.http 200 (some { goodPayload with error := some "camera" })],
      r.failed = true) ∧
    ∃ s, run (create allPresent)
        ([FrameResponse.networkError, FrameResponse.http 500 none,
          FrameResponse.http 200 (some { goodPayload with error := some "camera" })].map
          Event.frameDone) = some s ∧
      s.config.frameUpdateInterval =
        min (100 * 1.5 ^ [FrameResponse.networkError, FrameResponse.http 500 none,
          FrameResponse.http 200 (some { goodPayload with error := some "camera" })].length)
          5000 ∧
      s.config.frameUpdateInterval ≤ 5000 ∧
      ∀ r : FrameResponse, r.failed = true →
        ∃ s1, step s (Event.frameDone r) = some s1 ∧
          s1.config.frameUpdateInterval =
            min (100 * 1.5 ^ ([FrameResponse.networkError, FrameResponse.http 500 none,
              FrameResponse.http 200
                (some { goodPayload with error := some "camera" })].length + 1)) 5000 ∧
          s.config.frameUpdateInterval ≤ s1.config.frameUpdateInterval :=
  ⟨by decide, backoff_closed_form allPresent _ (by decide)⟩

theorem updateFrameResume_noFrame (s : App) (status : Nat) (data : FramePayload)
    (hs : responseOk status = true) (he : truthyStr data.error = false)
    (hf : truthyStr data.frame = false) :
    updateFrameResume s (.http status (some data)) = .ok s := by
  unfold updateFrameResume
  rw [updateFrameTry_noFrame s status data hs he hf]

theorem updateFrameResume_success (s : App) (h : RateOk s) (vf vp cs : Element)
    (hv : s.elements.videoFeed = some vf) (hp : s.elements.videoPlaceholder = some vp)
    (hc : s.elements.connectionStatus = some cs)
    (status : Nat) (data : FramePayload) (hs : responseOk status = true)
    (he : truthyStr data.error = false) (hf : truthyStr data.frame = true) :
    ∃ s1, updateFrameResume s (.http status (some data)) = .ok s1 ∧
      s1.config.frameUpdateInterval = 100 ∧ s1.isConnected = true ∧ sched s1 = sched s := by
  obtain ⟨s2, h2⟩ := showFrame_present s (data.frame.getD "") vf vp hv hp
  have hcore := showFrame_core s (data.frame.getD "")
  rw [h2] at hcore
  simp only [Res.state] at hcore
  have hcore3 : core (applyPayload s2 data) = core s := (applyPayload_core s2 data).trans hcore
  have hc3 : (applyPayload s2 data).elements.connectionStatus = some cs := by
    have := congrArg Core.connectionStatus hcore3
    simp only [core] at this
    rw [this, hc]
  obtain ⟨s1, h1⟩ := setConnectionStatus_true_present _ cs hc3
  obtain ⟨hi, hx⟩ := setConnectionStatus_true_ok _ (rateOk_of_core hcore3 h) s1 h1
  have hsch := (setConnectionStatus_frame (applyPayload s2 data) true).1
  rw [h1] at hsch
  simp only [Res.state] at hsch
  refine ⟨s1, ?_, hx, hi, hsch.trans (congrArg Core.sched hcore3)⟩
  unfold updateFrameResume
  rw [updateFrameTry_frame s status data hs he hf, h2]
  simp only
  rw [h1]

theorem reachable_of_run (els : Elements) (es : List Event) :
    ∀ s s1 : App, Reachable els s → run s es = some s1 → Reachable els s1 := by
  induction es with
  | nil =>
    intro s s1 hs hrun
    simp only [run, Option.some.injEq] at hrun
    rw [← hrun]; exact hs
  | cons e es ih =>
    intro s s1 hs hrun
    simp only [run] at hrun
    cases hst : step s e with
    | none => rw [hst] at hrun; cases hrun
    | some s2 =>
      rw [hst] at hrun
      exact ih s2 s1 (Reachable.next e hs hst) hrun

/-- C2, counterexample. After one failed poll (interval 150) a 2xx response
whose payload has no `error` field and no frame is processed without any
change: the interval stays 150. -/
theorem reset_on_success_counterexample :
    responseOk 200 = true ∧ truthyStr noFramePayload.error = false ∧
    (run (create allPresent)
        [Event.frameDone FrameResponse.networkError,
         Event.frameDone (FrameResponse.http 200 (some noFramePayload))]).map
      (fun s => s.config.frameUpdateInterval) = some 150 ∧
    (150 : ℚ) ≠ 100 := by
  refine ⟨by decide, by decide, ?_, by norm_num⟩
  simp [run, step, create, init, fresh, allPresent, noFramePayload, blank, startUpdates,
    stopUpdates, setInterval, clearInterval, updateFrame, updateLogs, updateFrameResume,
    updateFrameTry, updateFrameCatch, setConnectionStatus, handleConnectionError,
    truthyHandle, truthyStr, responseOk, Res.state]
  norm_num

/-- C2, amended. In every reachable state whose document has the `videoFeed`,
`videoPlaceholder` and `connectionStatus` elements, a frame poll in flight
that settles with a 2xx response whose payload has no `error` field and a
non-empty frame is processed without an exception and leaves the interval
at exactly 100, with the connection flag set. -/
theorem reset_on_success (els : Elements) (s : App) (hr : Reachable els s)
    (vf vp cs : Element)
    (hv : s.elements.videoFeed = some vf) (hp : s.elements.videoPlaceholder = some vp)
    (hc : s.elements.connectionStatus = some cs) (hpend : 1 ≤ s.framePending)
    (status : Nat) (data : FramePayload) (hs : responseOk status = true)
    (he : truthyStr data.error = false) (hf : truthyStr data.frame = true) :
    ∃ s1, updateFrameResume { s with framePending := s.framePending - 1 }
        (FrameResponse.http status (some data)) = Res.ok s1 ∧
      step s (Event.frameDone (FrameResponse.http status (some data))) = some s1 ∧
      s1.config.frameUpdateInterval = 100 ∧ s1.isConnected = true := by
  have hrate : RateOk { s with framePending := s.framePending - 1 } :=
    rateOk_congr rfl rfl (reachable_rateOk els s hr)
  obtain ⟨s1, h1, hx, hi, _⟩ :=
    updateFrameResume_success { s with framePending := s.framePending - 1 } hrate vf vp cs
      hv hp hc status data hs he hf
  have hne : s.framePending ≠ 0 := by omega
  refine ⟨s1, h1, ?_, hx, hi⟩
  simp only [step, hne, if_false, h1, Res.state]

theorem one_failure (els : Elements) :
    ∃ s, run (create els) [Event.frameDone FrameResponse.networkError] = some s ∧
      s.isConnected = false ∧ 1 ≤ s.framePending ∧ s.config.frameUpdateInterval = 150 ∧
      s.elements = els := by
  obtain ⟨h1, h2, h3, h4, _⟩ := create_facts els
  obtain ⟨s, hrun, hc, hp, hx, hel⟩ :=
    run_failures [FrameResponse.networkError] (by decide) (create els) h1 (by rw [h2])
      (by rw [h3]; norm_num) (by rw [h3]; norm_num)
  refine ⟨s, hrun, hc, hp, ?_, hel.trans h4⟩
  rw [hx, h3]
  norm_num

/-- Witness of C2: the state after one failed poll (interval 150, the next
poll in flight), every element present, and a payload carrying a frame. -/
theorem reset_on_success_witness :
    ∃ s, run (create allPresent) [Event.frameDone FrameResponse.networkError] = some s ∧
      s.config.frameUpdateInterval = 150 ∧
      ∃ s1, updateFrameResume { s with framePending := s.framePending - 1 }
          (FrameResponse.http 200 (some goodPayload)) = Res.ok s1 ∧
        step s (Event.frameDone (FrameResponse.http 200 (some goodPayload))) = some s1 ∧
        s1.config.frameUpdateInterval = 100 ∧ s1.isConnected = true := by
  obtain ⟨s, hrun, _, hp, hx, hel⟩ := one_failure allPresent
  exact ⟨s, hrun, hx,
    reset_on_success allPresent s
      (reachable_of_run allPresent _ _ s Reachable.start hrun) blank blank blank
      (by rw [hel]; rfl) (by rw [hel]; rfl) (by rw [hel]; rfl) hp 200 goodPayload
      (by decide) (by decide) (by decide)⟩

/-- C3, the code at the failing input. One failed poll re-registers the frame
timer with period 150; the successful poll that follows sets the interval
back to 100 but leaves that timer in place: handle 3 is still the live frame
timer and its period is 150, not the current interval. -/
theorem reset_keeps_backed_off_timer :
    (run (create allPresent) [Event.frameDone FrameResponse.networkError]).map
      (fun s => (s.config.frameUpdateInterval, s.updateInterval,
        (liveTimers s PollTask.frame).map (fun t => (t.id, t.period)))) =
      some (150, some 3, [(3, 150)]) ∧
    (run (create allPresent)
        [Event.frameDone FrameResponse.networkError,
         Event.frameDone (FrameResponse.http 200 (some goodPayload))]).map
      (fun s => (s.isConnected, s.config.frameUpdateInterval, s.updateInterval,
        (liveTimers s PollTask.frame).map (fun t => (t.id, t.period)))) =
      some (true, 100, some 3, [(3, 150)]) := by
  constructor
  · simp [run, step, create, init, fresh, allPresent, blank, startUpdates,
      stopUpdates, setInterval, clearInterval, updateFrame, updateLogs, updateFrameResume,
      updateFrameTry, updateFrameCatch, setConnectionStatus, handleConnectionError,
      truthyHandle, truthyStr, responseOk, Res.state, liveTimers]
    norm_num
  · simp [run, step, create, init, fresh, allPresent, goodPayload, blank, startUpdates,
      stopUpdates, setInterval, clearInterval, updateFrame, updateLogs, updateFrameResume,
      updateFrameTry, updateFrameCatch, setConnectionStatus, handleConnectionError, showFrame,
      applyPayload, updateDetectionStatus, updateStats, truthyHandle, truthyStr, responseOk,
      Res.state, liveTimers]
    norm_num

/-- C4. No duplicate timers: in every reachable state each live timer is the
one `updateInterval` names (and runs the frame task) or the one `logsInterval`
names (and runs the logs task), handles of live timers are distinct, and
there is at most one live timer per task; after two calls of `startUpdates`
in a row there is exactly one live frame timer and exactly one live logs
timer, each named by its handle. -/
theorem no_duplicate_timers (els : Elements) (s : App) (hr : Reachable els s) :
    (∀ t ∈ s.timers, (t.task = PollTask.frame ∧ s.updateInterval = some t.id) ∨
      (t.task = PollTask.logs ∧ s.logsInterval = some t.id)) ∧
    (s.timers.map (fun t => t.id)).Nodup ∧
    (liveTimers s PollTask.frame).length ≤ 1 ∧ (liveTimers s PollTask.logs).length ≤ 1 ∧
    (s.timers = [] ↔ s.updateInterval = none ∧ s.logsInterval = none) ∧
    (liveTimers (startUpdates (startUpdates s)) PollTask.frame).map (fun t => some t.id) =
      [(startUpdates (startUpdates s)).updateInterval] ∧
    (liveTimers (startUpdates (startUpdates s)) PollTask.logs).map (fun t => some t.id) =
      [(startUpdates (startUpdates s)).logsInterval] ∧
    (startUpdates (startUpdates s)).timers.length = 2 := by
  have hok := reachable_timersOk els s hr
  have h1 := startUpdates_timersOk s hok
  have h2 := startUpdates_sched (startUpdates s) h1
  have ht := congrArg Sched.timers h2
  have hu := congrArg Sched.updateInterval h2
  have hl := congrArg Sched.logsInterval h2
  simp only [sched] at ht hu hl
  refine ⟨?_, ?_, ?_, ?_, ?_, ?_, ?_, ?_⟩
  · obtain ⟨_, h | ⟨a, p, q, _, _, hu, hl, ht⟩⟩ := hok
    · rw [h.2.2]; intro t ht; cases ht
    · rw [ht, hu, hl]; simp
  · obtain ⟨_, h | ⟨a, p, q, _, _, hu, hl, ht⟩⟩ := hok
    · rw [h.2.2]; simp
    · rw [ht]; simp
  · obtain ⟨_, h | ⟨a, p, q, _, _, hu, hl, ht⟩⟩ := hok
    · simp [liveTimers, h.2.2]
    · simp [liveTimers, ht]
  · obtain ⟨_, h | ⟨a, p, q, _, _, hu, hl, ht⟩⟩ := hok
    · simp [liveTimers, h.2.2]
    · simp [liveTimers, ht]
  · obtain ⟨_, h | ⟨a, p, q, _, _, hu, hl, ht⟩⟩ := hok
    · simp [h.1, h.2.1, h.2.2]
    · simp [ht, hu]
  · simp [liveTimers, ht, hu]
  · simp [liveTimers, ht, hl]
  · simp [ht]

/-- Witness of C4: the state after one failed poll, which has restarted the
scheduler from inside the response handler. -/
theorem no_duplicate_timers_witness :
    ∃ s, run (create allPresent) [Event.frameDone FrameResponse.networkError] = some s ∧
    (∀ t ∈ s.timers, (t.task = PollTask.frame ∧ s.updateInterval = some t.id) ∨
      (t.task = PollTask.logs ∧ s.logsInterval = some t.id)) ∧
    (s.timers.map (fun t => t.id)).Nodup ∧
    (liveTimers s PollTask.frame).length ≤ 1 ∧ (liveTimers s PollTask.logs).length ≤ 1 ∧
    (s.timers = [] ↔ s.updateInterval = none ∧ s.logsInterval = none) ∧
    (liveTimers (startUpdates (startUpdates s)) PollTask.frame).map (fun t => some t.id) =
      [(startUpdates (startUpdates s)).updateInterval] ∧
    (liveTimers (startUpdates (startUpdates s)) PollTask.logs).map (fun t => some t.id) =
      [(startUpdates (startUpdates s)).logsInterval] ∧
    (startUpdates (startUpdates s)).timers.length = 2 := by
  obtain ⟨s, hrun, _⟩ := one_failure allPresent
  exact ⟨s, hrun, no_duplicate_timers allPresent s
    (reachable_of_run allPresent _ _ s Reachable.start hrun)⟩

/-- C5, the code at the failing input. After `pauseUpdates` both handles are
null, no timer is live and the first poll is still in flight; when that poll
fails, the handler restarts the scheduler: both handles are set, two timers
are live and a second frame request and a second logs request have been
sent. -/
theorem stale_failure_restarts_scheduler :
    (run (create allPresent) [Event.pauseUpdates]).map
      (fun s => (s.updateInterval, s.logsInterval, s.timers.length, s.framePending,
        s.frameRequests, s.logsRequests)) = some (none, none, 0, 1, 1, 1) ∧
    (run (create allPresent)
        [Event.pauseUpdates, Event.frameDone FrameResponse.networkError]).map
      (fun s => (s.updateInterval, s.logsInterval,
        s.timers.map (fun t => (t.id, t.period, t.task)), s.frameRequests, s.logsRequests)) =
      some (some 3, some 4, [(3, 150, PollTask.frame), (4, 2000, PollTask.logs)], 2, 2) := by
  constructor
  · simp [run, step, create, init, fresh, allPresent, blank, startUpdates, pauseUpdates,
      stopUpdates, setInterval, clearInterval, updateFrame, updateLogs, truthyHandle]
  · simp [run, step, create, init, fresh, allPresent, blank, startUpdates, pauseUpdates,
      stopUpdates, setInterval, clearInterval, updateFrame, updateLogs, updateFrameResume,
      updateFrameTry, updateFrameCatch, setConnectionStatus, handleConnectionError,
      truthyHandle, truthyStr, responseOk, Res.state]
    norm_num

/-- C6. Idempotent connection transitions: `setConnectionStatus` called with
the value the flag already has returns normally and changes nothing, the
write counter of the indicator and the interval included; hence a second
call with the same value, right after a first, leaves the state of the first
call as it is, whether the first call threw or not. -/
theorem setConnectionStatus_idempotent (s : App) (v : Bool) :
    setConnectionStatus s s.isConnected = Res.ok s ∧
    setConnectionStatus (setConnectionStatus s v).state v =
      Res.ok (setConnectionStatus s v).state ∧
    (setConnectionStatus (setConnectionStatus s true).state true).state.elements.connectionStatus
      = (setConnectionStatus s true).state.elements.connectionStatus ∧
    (setConnectionStatus (setConnectionStatus s true).state true).state.config
      = (setConnectionStatus s true).state.config := by
  have key : ∀ w : Bool, setConnectionStatus (setConnectionStatus s w).state w =
      Res.ok (setConnectionStatus s w).state := by
    intro w
    have h := setConnectionStatus_same (setConnectionStatus s w).state
    rw [(setConnectionStatus_frame s w).2.1] at h
    exact h
  refine ⟨setConnectionStatus_same s, key v, ?_, ?_⟩
  · rw [key true]; rfl
  · rw [key true]; rfl

/-- C8. Stale detection state on failure: when `updateFrame` processes a
rejected fetch, a non-2xx response, an unparsable body or a payload with a
non-empty `error`, the flag `isDetectionActive`, the detection status element
and the toggle button are exactly what they were, whether or not the failure
path itself throws. -/
theorem failed_poll_keeps_detection (s : App) (r : FrameResponse) (h : r.failed = true) :
    (updateFrameResume s r).state.isDetectionActive = s.isDetectionActive ∧
    (updateFrameResume s r).state.elements.detectionStatus = s.elements.detectionStatus ∧
    (updateFrameResume s r).state.elements.toggleDetection = s.elements.toggleDetection := by
  unfold updateFrameResume
  rw [updateFrameTry_failed s r h]
  simp only [updateFrameCatch]
  obtain ⟨_, _, h1, h2, h3, _⟩ := setConnectionStatus_frame s false
  cases hc : setConnectionStatus s false with
  | throw s1 =>
    rw [hc] at h1 h2 h3
    exact ⟨h1, h2, h3⟩
  | ok s1 =>
    rw [hc] at h1 h2 h3
    simp only [Res.state] at h1 h2 h3 ⊢
    obtain ⟨_, g1, g2, _⟩ := handleConnectionError_frame s1
    rw [g1, g2]
    exact ⟨h1, h2, h3⟩

/-- Witness of C8: a connected application showing an active detection, then
an HTTP 503. -/
theorem failed_poll_keeps_detection_witness :
    (FrameResponse.http 503 none).failed = true ∧
    (updateFrameResume
        (updateFrameResume (create allPresent) (FrameResponse.http 200 (some goodPayload))).state
        (FrameResponse.http 503 none)).state.isDetectionActive =
      (updateFrameResume (create allPresent)
        (FrameResponse.http 200 (some goodPayload))).state.isDetectionActive ∧
    (updateFrameResume
        (updateFrameResume (create allPresent) (FrameResponse.http 200 (some goodPayload))).state
        (FrameResponse.http 503 none)).state.elements.detectionStatus =
      (updateFrameResume (create allPresent)
        (FrameResponse.http 200 (some goodPayload))).state.elements.detectionStatus ∧
    (updateFrameResume
        (updateFrameResume (create allPresent) (FrameResponse.http 200 (some goodPayload))).state
        (FrameResponse.http 503 none)).state.elements.toggleDetection =
      (updateFrameResume (create allPresent)
        (FrameResponse.http 200 (some goodPayload))).state.elements.toggleDetection :=
  ⟨by decide, failed_poll_keeps_detection _ (FrameResponse.http 503 none) (by decide)⟩

/-- C7, the code at the failing input. The same successful payload, processed
as the first poll: with every element present the application is connected
at interval 100; without `videoFeed` the assignment to `videoFeed.src` throws
inside `try`, the poll is handled as a connection failure and the interval is
backed off to 150; without `connectionStatus` the `catch` block itself throws
and `updateFrame` ends with an exception, disconnected. -/
theorem missing_element_fails_poll :
    (run (create allPresent)
        [Event.frameDone (FrameResponse.http 200 (some goodPayload))]).map
      (fun s => (s.isConnected, s.config.frameUpdateInterval)) = some (true, 100) ∧
    (run (create noVideoFeed)
        [Event.frameDone (FrameResponse.http 200 (some goodPayload))]).map
      (fun s => (s.isConnected, s.config.frameUpdateInterval, s.frameRequests)) =
      some (false, 150, 2) ∧
    (updateFrameResume (create noIndicator)
        (FrameResponse.http 200 (some goodPayload))).threw = true ∧
    (updateFrameResume (create noIndicator)
        (FrameResponse.http 200 (some goodPayload))).state.isConnected = false := by
  refine ⟨?_, ?_, ?_, ?_⟩
  · simp [run, step, create, init, fresh, allPresent, goodPayload, blank, startUpdates,
      stopUpdates, setInterval, clearInterval, updateFrame, updateLogs, updateFrameResume,
      updateFrameTry, updateFrameCatch, setConnectionStatus, handleConnectionError, showFrame,
      applyPayload, updateDetectionStatus, updateStats, truthyHandle, truthyStr, responseOk,
      Res.state]
  · simp [run, step, create, init, fresh, noVideoFeed, allPresent, goodPayload, blank,
      startUpdates, stopUpdates, setInterval, clearInterval, updateFrame, updateLogs,
      updateFrameResume, updateFrameTry, updateFrameCatch, setConnectionStatus,
      handleConnectionError, showFrame, applyPayload, updateDetectionStatus, updateStats,
      truthyHandle, truthyStr, responseOk, Res.state]
    norm_num
  · simp [create, init, fresh, noIndicator, allPresent, goodPayload, blank,
      startUpdates, stopUpdates, setInterval, clearInterval, updateFrame, updateLogs,
      updateFrameResume, updateFrameTry, updateFrameCatch, setConnectionStatus,
      handleConnectionError, showFrame, applyPayload, updateDetectionStatus, updateStats,
      truthyHandle, truthyStr, responseOk, Res.state, Res.threw]
  · simp [create, init, fresh, noIndicator, allPresent, goodPayload, blank,
      startUpdates, stopUpdates, setInterval, clearInterval, updateFrame, updateLogs,
      updateFrameResume, updateFrameTry, updateFrameCatch, setConnectionStatus,
      handleConnectionError, showFrame, applyPayload, updateDetectionStatus, updateStats,
      truthyHandle, truthyStr, responseOk, Res.state, Res.threw]

/-- C10. Rate/connection invariant: in every reachable state the interval is
between 100 and 5000, and it is exactly 100 whenever the application is
connected. -/
theorem rate_connection_invariant (els : Elements) (s : App) (hr : Reachable els s) :
    100 ≤ s.config.frameUpdateInterval ∧ s.config.frameUpdateInterval ≤ 5000 ∧
    (s.isConnected = true → s.config.frameUpdateInterval = 100) := by
  obtain ⟨⟨h1, h2⟩, h3⟩ := reachable_rateOk els s hr
  exact ⟨h1, h2, h3⟩

/-- Witness of C10: the state after one failed poll, disconnected and backed
off to 150. -/
theorem rate_connection_invariant_witness :
    ∃ s, run (create allPresent) [Event.frameDone FrameResponse.networkError] = some s ∧
      s.isConnected = false ∧ s.config.frameUpdateInterval = 150 ∧
      100 ≤ s.config.frameUpdateInterval ∧ s.config.frameUpdateInterval ≤ 5000 ∧
      (s.isConnected = true → s.config.frameUpdateInterval = 100) := by
  obtain ⟨s, hrun, hc, _, hx, _⟩ := one_failure allPresent
  exact ⟨s, hrun, hc, hx, rate_connection_invariant allPresent s
    (reachable_of_run allPresent _ _ s Reachable.start hrun)⟩

/-! ## The busy guard of the toggle button -/

theorem toggleView_of_core {a b : App} (h : core a = core b) : toggleView a = toggleView b := by
  have h1 : a.togglePending = b.togglePending := congrArg Core.togglePending h
  have h2 : a.cooldownPending = b.cooldownPending := congrArg Core.cooldownPending h
  have h3 : a.toggleRequests = b.toggleRequests := congrArg Core.toggleRequests h
  have h4 : toggleBusy a = toggleBusy b := congrArg Core.busy h
  simp [toggleView, h1, h2, h3, h4]

theorem stopUpdates_toggleView (s : App) : toggleView (stopUpdates s) = toggleView s := by
  unfold stopUpdates clearInterval toggleView toggleBusy App.cooldownPending
  cases hu : s.updateInterval <;> cases hl : s.logsInterval <;>
    simp [truthyHandle] <;> (repeat (split <;> simp_all))

theorem startUpdates_toggleView (s : App) : toggleView (startUpdates s) = toggleView s := by
  have h := stopUpdates_toggleView s
  simp only [toggleView, toggleBusy, ToggleView.mk.injEq, App.cooldownPending] at h ⊢
  obtain ⟨h1, h2, h3, h4⟩ := h
  simp [startUpdates, setInterval, updateFrame, updateLogs, h1, h2, h3, h4]

theorem handleConnectionError_toggleView (s : App) :
    toggleView (handleConnectionError s) = toggleView s := by
  unfold handleConnectionError
  split
  · rw [startUpdates_toggleView]; rfl
  · rfl

theorem setConnectionStatus_toggleView (s : App) (v : Bool) :
    toggleView (setConnectionStatus s v).state = toggleView s := by
  unfold setConnectionStatus toggleView toggleBusy App.cooldownPending
  cases hc : s.elements.connectionStatus <;> cases v <;> cases hi : s.isConnected <;>
    simp [Res.state, hc, hi]

theorem updateFrameResume_toggleView (s : App) (r : FrameResponse) :
    toggleView (updateFrameResume s r).state = toggleView s := by
  have htry : toggleView (updateFrameTry s r).state = toggleView s := by
    rcases frameResponse_cases r with hf | ⟨status, data, rfl, hs, he⟩
    · rw [updateFrameTry_failed s r hf]; rfl
    · cases hfr : truthyStr data.frame
      · rw [updateFrameTry_noFrame s status data hs he hfr]; rfl
      · rw [updateFrameTry_frame s status data hs he hfr]
        have hc := showFrame_core s (data.frame.getD "")
        cases hsf : showFrame s (data.frame.getD "") with
        | throw s1 => rw [hsf] at hc; exact toggleView_of_core hc
        | ok s1 =>
          rw [hsf] at hc
          simp only
          rw [setConnectionStatus_toggleView]
          exact toggleView_of_core ((applyPayload_core s1 data).trans hc)
  unfold updateFrameResume
  cases hr : updateFrameTry s r with
  | ok s1 => rw [hr] at htry; exact htry
  | throw s1 =>
    rw [hr] at htry
    simp only [updateFrameCatch]
    have hs := setConnectionStatus_toggleView s1 false
    cases hc : setConnectionStatus s1 false with
    | throw s2 => rw [hc] at hs; exact hs.trans htry
    | ok s2 =>
      rw [hc] at hs
      simp only [Res.state] at hs ⊢
      rw [handleConnectionError_toggleView]
      exact hs.trans htry

theorem updateLogsResume_toggleView (s : App) (r : LogsResponse) :
    toggleView (updateLogsResume s r) = toggleView s := by
  unfold updateLogsResume updateLogsDisplay
  cases r with
  | networkError => rfl
  | http status body =>
    cases body with
    | none => simp
    | some logs =>
      cases hrs : responseOk status <;> cases hl : s.elements.logsContainer <;>
        simp [toggleView, toggleBusy, hl, hrs, App.cooldownPending]

theorem toggleDetection_busy (s : App) (h : toggleBusy s = true) :
    toggleDetection s = Res.ok s := by
  unfold toggleBusy at h
  unfold toggleDetection
  cases hb : s.elements.toggleDetection with
  | none => rw [hb] at h; cases h
  | some b =>
    rw [hb] at h
    simp only at h
    simp [h]

theorem toggleDetection_start (s : App) (b : Element)
    (hb : s.elements.toggleDetection = some b) (hd : b.disabled = false) :
    ∃ s1, toggleDetection s = Res.ok s1 ∧ toggleBusy s1 = true ∧
      s1.togglePending = s.togglePending + 1 ∧ s1.cooldownPending = s.cooldownPending ∧
      s1.toggleRequests = s.toggleRequests + 1 := by
  simp only [toggleDetection, hb, hd, Bool.false_eq_true, if_false]
  exact ⟨_, rfl, by simp [toggleBusy, setButtonLoading, truthyStr], rfl, rfl, rfl⟩

theorem toggleDetectionResume_toggleView (s : App) (r : ToggleResponse) :
    (toggleDetectionResume s r).togglePending = s.togglePending ∧
    (toggleDetectionResume s r).cooldownPending = s.cooldownPending + 1 ∧
    (toggleDetectionResume s r).toggleRequests = s.toggleRequests ∧
    toggleBusy (toggleDetectionResume s r) = toggleBusy s := by
  unfold toggleDetectionResume showNotification updateFrame toggleBusy App.cooldownPending
  cases r with
  | networkError => simp
  | http status body =>
    cases body with
    | none => cases hrs : responseOk status <;> simp [hrs]
    | some active => cases hrs : responseOk status <;> simp [hrs]

theorem cooldownCallback_facts (s : App) :
    (cooldownCallback s).togglePending = s.togglePending ∧
    (cooldownCallback s).cooldowns = s.cooldowns ∧
    (cooldownCallback s).toggleRequests = s.toggleRequests ∧
    toggleBusy (cooldownCallback s) = false ∧
    (cooldownCallback s).elements.toggleDetection =
      s.elements.toggleDetection.map
        (fun b => { b with disabled := false, writes := b.writes + 1 }) := by
  unfold cooldownCallback toggleBusy setButtonLoading
  cases hb : s.elements.toggleDetection <;> simp [hb]

theorem step_cooldownFire (s : App) (d : ℚ) (rest : List ℚ) (h : s.cooldowns = d :: rest) :
    step s Event.cooldownFire = some (cooldownCallback { s with cooldowns := rest }) := by
  simp only [step, h]

theorem step_cooldownFire_none (s : App) (h : s.cooldowns = []) :
    step s Event.cooldownFire = none := by
  simp only [step, h]

theorem step_toggleView (s s1 : App) (e : Event) (h1 : e ≠ Event.cooldownFire)
    (h2 : e ≠ Event.toggleDetection) (h3 : ∀ r, e ≠ Event.toggleDone r)
    (hs : step s e = some s1) : toggleView s1 = toggleView s := by
  cases e with
  | frameTick =>
    simp only [step] at hs
    split at hs
    · cases hs; rfl
    · cases hs
  | logsTick =>
    simp only [step] at hs
    split at hs
    · cases hs; rfl
    · cases hs
  | frameDone r =>
    simp only [step] at hs
    split at hs
    · cases hs
    · cases hs; exact updateFrameResume_toggleView _ r
  | logsDone r =>
    simp only [step] at hs
    split at hs
    · cases hs
    · cases hs; exact updateLogsResume_toggleView _ r
  | startUpdates => cases hs; exact startUpdates_toggleView s
  | stopUpdates => cases hs; exact stopUpdates_toggleView s
  | pauseUpdates => cases hs; exact stopUpdates_toggleView s
  | resumeUpdates => cases hs; exact startUpdates_toggleView s
  | toggleDetection => exact absurd rfl h2
  | toggleDone r => exact absurd rfl (h3 r)
  | cooldownFire => exact absurd rfl h1
  | forceUpdate => cases hs; rfl

theorem step_busy (s s1 : App) (e : Event) (hne : e ≠ Event.cooldownFire)
    (hs : step s e = some s1) (hb : toggleBusy s = true) :
    toggleBusy s1 = true ∧ s1.toggleRequests = s.toggleRequests ∧
    s1.togglePending + s1.cooldownPending = s.togglePending + s.cooldownPending := by
  have view : ∀ a : App, toggleView a = toggleView s →
      toggleBusy a = true ∧ a.toggleRequests = s.toggleRequests ∧
      a.togglePending + a.cooldownPending = s.togglePending + s.cooldownPending := by
    intro a ha
    have h1 : a.togglePending = s.togglePending := congrArg ToggleView.togglePending ha
    have h2 : a.cooldownPending = s.cooldownPending := congrArg ToggleView.cooldownPending ha
    have h3 : a.toggleRequests = s.toggleRequests := congrArg ToggleView.toggleRequests ha
    have h4 : toggleBusy a = toggleBusy s := congrArg ToggleView.busy ha
    exact ⟨h4.trans hb, h3, by rw [h1, h2]⟩
  by_cases h2 : e = Event.toggleDetection
  · subst h2
    simp only [step, toggleDetection_busy s hb, Res.state, Option.some.injEq] at hs
    subst hs
    exact view _ rfl
  · by_cases h3 : ∃ r, e = Event.toggleDone r
    · obtain ⟨r, rfl⟩ := h3
      simp only [step] at hs
      split at hs
      · cases hs
      · rename_i hp
        cases hs
        obtain ⟨g1, g2, g3, g4⟩ :=
          toggleDetectionResume_toggleView { s with togglePending := s.togglePending - 1 } r
        refine ⟨g4.trans hb, g3, ?_⟩
        rw [g1, g2]
        show s.togglePending - 1 + (s.cooldownPending + 1) = s.togglePending + s.cooldownPending
        omega
    · exact view _ (step_toggleView s s1 e hne h2 (fun r hr => h3 ⟨r, hr⟩) hs)

theorem step_toggleOk (s s1 : App) (e : Event) (h : ToggleOk s) (hs : step s e = some s1) :
    ToggleOk s1 := by
  by_cases hcd : e = Event.cooldownFire
  · subst hcd
    cases hcs : s.cooldowns with
    | nil => rw [step_cooldownFire_none s hcs] at hs; cases hs
    | cons d rest =>
      rw [step_cooldownFire s d rest hcs] at hs
      cases hs
      have h1 := h.1
      simp only [App.cooldownPending, hcs, List.length_cons] at h1
      obtain ⟨g1, g2, _⟩ := cooldownCallback_facts { s with cooldowns := rest }
      have g3 : (cooldownCallback { s with cooldowns := rest }).cooldownPending = rest.length := by
        simp only [App.cooldownPending, g2]
      refine ⟨?_, ?_⟩
      · rw [g1, g3]
        show s.togglePending + rest.length ≤ 1
        omega
      · intro hge
        rw [g1, g3] at hge
        have : 1 ≤ s.togglePending + rest.length := hge
        omega
  · cases hb : toggleBusy s with
    | true =>
      obtain ⟨g1, _, g3⟩ := step_busy s s1 e hcd hs hb
      exact ⟨by rw [g3]; exact h.1, fun _ => g1⟩
    | false =>
      have hzero : s.togglePending + s.cooldownPending = 0 := by
        by_contra hne
        have := h.2 (by omega)
        rw [hb] at this
        cases this
      by_cases h2 : e = Event.toggleDetection
      · subst h2
        simp only [step, Option.some.injEq] at hs
        cases hel : s.elements.toggleDetection with
        | none =>
          have : toggleDetection s = Res.throw s := by simp [toggleDetection, hel]
          rw [this] at hs
          simp only [Res.state] at hs
          subst hs
          exact h
        | some b =>
          have hd : b.disabled = false := by
            simpa [toggleBusy, hel] using hb
          obtain ⟨s2, e1, e2, e3, e4, _⟩ := toggleDetection_start s b hel hd
          rw [e1] at hs
          simp only [Res.state] at hs
          subst hs
          exact ⟨by rw [e3, e4]; omega, fun _ => e2⟩
      · by_cases h3 : ∃ r, e = Event.toggleDone r
        · obtain ⟨r, rfl⟩ := h3
          simp only [step] at hs
          split at hs
          · cases hs
          · rename_i hp
            omega
        · have hv := step_toggleView s s1 e hcd h2 (fun r hr => h3 ⟨r, hr⟩) hs
          have g1 : s1.togglePending = s.togglePending := congrArg ToggleView.togglePending hv
          have g2 : s1.cooldownPending = s.cooldownPending :=
            congrArg ToggleView.cooldownPending hv
          exact ⟨by rw [g1, g2]; exact h.1, fun hge => by rw [g1, g2] at hge; omega⟩

theorem create_toggleOk (els : Elements) : ToggleOk (create els) := by
  have hv := startUpdates_toggleView (fresh els)
  have g1 : (create els).togglePending = 0 := congrArg ToggleView.togglePending hv
  have g2 : (create els).cooldownPending = 0 := congrArg ToggleView.cooldownPending hv
  exact ⟨by rw [g1, g2]; omega, fun hge => by rw [g1, g2] at hge; omega⟩

theorem reachable_toggleOk (els : Elements) (s : App) (h : Reachable els s) : ToggleOk s := by
  induction h with
  | start => exact create_toggleOk els
  | next e _ hs ih => exact step_toggleOk _ _ e ih hs

theorem run_busy (es : List Event) (hes : Event.cooldownFire ∉ es) :
    ∀ s s1 : App, toggleBusy s = true → run s es = some s1 →
      toggleBusy s1 = true ∧ s1.toggleRequests = s.toggleRequests := by
  induction es with
  | nil =>
    intro s s1 hb hrun
    simp only [run, Option.some.injEq] at hrun
    subst hrun
    exact ⟨hb, rfl⟩
  | cons e es ih =>
    intro s s1 hb hrun
    simp only [run] at hrun
    have hne : e ≠ Event.cooldownFire := fun h => hes (h ▸ List.mem_cons_self _ _)
    cases hst : step s e with
    | none => rw [hst] at hrun; cases hrun
    | some s2 =>
      rw [hst] at hrun
      obtain ⟨g1, g2, _⟩ := step_busy s s2 e hne hst hb
      obtain ⟨k1, k2⟩ := ih (fun h => hes (List.mem_cons_of_mem _ h)) s2 s1 g1 hrun
      exact ⟨k1, k2.trans g2⟩

theorem setConnectionStatus_buttonCooldown (s : App) (v : Bool) :
    (setConnectionStatus s v).state.config.buttonCooldown = s.config.buttonCooldown := by
  unfold setConnectionStatus
  cases hc : s.elements.connectionStatus <;> cases v <;> cases hi : s.isConnected <;>
    simp [Res.state, hc, hi]

theorem updateFrameResume_buttonCooldown (s : App) (r : FrameResponse) :
    (updateFrameResume s r).state.config.buttonCooldown = s.config.buttonCooldown := by
  have htry : (updateFrameTry s r).state.config.buttonCooldown = s.config.buttonCooldown := by
    rcases frameResponse_cases r with hf | ⟨status, data, rfl, hs, he⟩
    · rw [updateFrameTry_failed s r hf]; rfl
    · cases hfr : truthyStr data.frame
      · rw [updateFrameTry_noFrame s status data hs he hfr]; rfl
      · rw [updateFrameTry_frame s status data hs he hfr]
        have hc := congrArg Core.config (showFrame_core s (data.frame.getD ""))
        cases hsf : showFrame s (data.frame.getD "") with
        | throw s1 =>
          rw [hsf] at hc
          simp only [core, Res.state] at hc ⊢
          rw [hc]
        | ok s1 =>
          rw [hsf] at hc
          simp only [core, Res.state] at hc
          simp only
          rw [setConnectionStatus_buttonCooldown]
          have ha := congrArg Core.config (applyPayload_core s1 data)
          simp only [core] at ha
          rw [ha, hc]
  unfold updateFrameResume
  cases ht : updateFrameTry s r with
  | ok s1 => rw [ht] at htry; exact htry
  | throw s1 =>
    rw [ht] at htry
    simp only [Res.state] at htry
    have hs := setConnectionStatus_buttonCooldown s1 false
    simp only [updateFrameCatch]
    cases hc : setConnectionStatus s1 false with
    | throw s2 => rw [hc] at hs; exact hs.trans htry
    | ok s2 =>
      rw [hc] at hs
      simp only [Res.state] at hs ⊢
      have hh : (handleConnectionError s2).config.buttonCooldown = s2.config.buttonCooldown := by
        unfold handleConnectionError
        split
        · rw [(startUpdates_frame _).1]
        · rfl
      rw [hh]
      exact hs.trans htry

theorem step_buttonCooldown (s s1 : App) (e : Event) (hs : step s e = some s1) :
    s1.config.buttonCooldown = s.config.buttonCooldown := by
  cases e with
  | frameTick =>
    simp only [step] at hs
    split at hs
    · cases hs; rfl
    · cases hs
  | logsTick =>
    simp only [step] at hs
    split at hs
    · cases hs; rfl
    · cases hs
  | frameDone r =>
    simp only [step] at hs
    split at hs
    · cases hs
    · cases hs; exact updateFrameResume_buttonCooldown _ r
  | logsDone r =>
    simp only [step] at hs
    split at hs
    · cases hs
    · cases hs
      rw [(updateLogsResume_core { s with logsPending := s.logsPending - 1 } r).2.1]
  | startUpdates => cases hs; rw [(startUpdates_frame s).1]
  | stopUpdates => cases hs; rw [(stopUpdates_frame s).1]
  | pauseUpdates =>
    cases hs
    exact congrArg Config.buttonCooldown (stopUpdates_frame s).1
  | resumeUpdates =>
    cases hs
    exact congrArg Config.buttonCooldown (startUpdates_frame s).1
  | toggleDetection => cases hs; rw [(toggleDetection_core s).2.1]
  | toggleDone r =>
    simp only [step] at hs
    split at hs
    · cases hs
    · cases hs
      rw [(toggleDetectionResume_core { s with togglePending := s.togglePending - 1 } r).2.1]
  | cooldownFire =>
    simp only [step] at hs
    split at hs
    · cases hs
    · cases hs; rfl
  | forceUpdate => cases hs; rfl

theorem reachable_buttonCooldown (els : Elements) (s : App) (h : Reachable els s) :
    s.config.buttonCooldown = 1000 := by
  induction h with
  | start =>
    show (startUpdates (fresh els)).config.buttonCooldown = 1000
    rw [(startUpdates_frame (fresh els)).1]
    rfl
  | next e _ hs ih => rw [step_buttonCooldown _ _ e hs]; exact ih

theorem toggleDetection_cooldowns (s : App) :
    (toggleDetection s).state.cooldowns = s.cooldowns := by
  unfold toggleDetection
  cases s.elements.toggleDetection with
  | none => simp [Res.state]
  | some b => cases hb : b.disabled <;> simp [Res.state, hb]

theorem toggleDetectionResume_cooldowns (s : App) (r : ToggleResponse) :
    (toggleDetectionResume s r).cooldowns = s.cooldowns ++ [s.config.buttonCooldown] := by
  unfold toggleDetectionResume showNotification updateFrame
  cases r with
  | networkError => simp
  | http status body =>
    cases body with
    | none => cases hrs : responseOk status <;> simp [hrs]
    | some active => cases hrs : responseOk status <;> simp [hrs]

/-- C9. Toggle busy-guard. In a reachable state with the button present and
enabled, `toggleDetection` disables the button and sends one request. In a
reachable state with a toggle request in flight or its cooldown pending, the
button is disabled and `toggleDetection` returns the state unchanged; the
cooldown callback cannot run while the request is in flight; every event
other than the cooldown callback leaves the button disabled and sends no
toggle request, and so does every sequence of such events, after which
`toggleDetection` is still a no-op. The cooldown delay `buttonCooldown` is
1000; handling the response or the failure of the request in flight arms
exactly one cooldown timeout, with delay 1000, and leaves the button
disabled; no other event arms one. When the cooldown callback runs it sets
`disabled` of the button to false, nothing is outstanding any more, and the
next `toggleDetection` sends a request again. -/
theorem toggle_busy_guard (els : Elements) (s : App) (hr : Reachable els s) :
    (∀ b, s.elements.toggleDetection = some b → b.disabled = false →
      ∃ s1, toggleDetection s = Res.ok s1 ∧ toggleBusy s1 = true ∧
        s1.togglePending = 1 ∧ s1.cooldownPending = 0 ∧
        s1.toggleRequests = s.toggleRequests + 1) ∧
    (1 ≤ s.togglePending + s.cooldownPending →
      toggleBusy s = true ∧ toggleDetection s = Res.ok s ∧
      (1 ≤ s.togglePending → step s Event.cooldownFire = none) ∧
      (∀ e s1, e ≠ Event.cooldownFire → step s e = some s1 →
        toggleBusy s1 = true ∧ s1.toggleRequests = s.toggleRequests ∧
        1 ≤ s1.togglePending + s1.cooldownPending) ∧
      (∀ es s1, Event.cooldownFire ∉ es → run s es = some s1 →
        toggleBusy s1 = true ∧ s1.toggleRequests = s.toggleRequests ∧
        toggleDetection s1 = Res.ok s1)) ∧
    s.config.buttonCooldown = 1000 ∧
    (1 ≤ s.togglePending → ∀ r : ToggleResponse,
      ∃ s1, step s (Event.toggleDone r) = some s1 ∧ s1.togglePending = 0 ∧
        s1.cooldowns = [1000] ∧ toggleBusy s1 = true ∧
        s1.toggleRequests = s.toggleRequests) ∧
    (∀ e s1, (∀ r, e ≠ Event.toggleDone r) → step s e = some s1 →
      s1.cooldownPending ≤ s.cooldownPending) ∧
    (1 ≤ s.cooldownPending →
      ∃ s1 b, step s Event.cooldownFire = some s1 ∧
        s.elements.toggleDetection = some b ∧ b.disabled = true ∧
        s1.elements.toggleDetection =
          some { b with disabled := false, writes := b.writes + 1 } ∧
        toggleBusy s1 = false ∧ s1.togglePending = 0 ∧ s1.cooldowns = [] ∧
        ∃ s2, toggleDetection s1 = Res.ok s2 ∧ toggleBusy s2 = true ∧
          s2.toggleRequests = s.toggleRequests + 1) := by
  have hok := reachable_toggleOk els s hr
  have hcd := reachable_buttonCooldown els s hr
  refine ⟨?_, ?_, hcd, ?_, ?_, ?_⟩
  · intro b hb hd
    have hbusy : toggleBusy s = false := by simp [toggleBusy, hb, hd]
    have hzero : s.togglePending + s.cooldownPending = 0 := by
      by_contra hne
      have := hok.2 (by omega)
      rw [hbusy] at this
      cases this
    obtain ⟨s1, e1, e2, e3, e4, e5⟩ := toggleDetection_start s b hb hd
    exact ⟨s1, e1, e2, by rw [e3]; omega, by rw [e4]; omega, e5⟩
  · intro hout
    have hb := hok.2 hout
    refine ⟨hb, toggleDetection_busy s hb, ?_, ?_, ?_⟩
    · intro hp
      have h1 := hok.1
      have hz : s.cooldownPending = 0 := by omega
      exact step_cooldownFire_none s (List.length_eq_zero.mp hz)
    · intro e s1 hne hs
      obtain ⟨g1, g2, g3⟩ := step_busy s s1 e hne hs hb
      exact ⟨g1, g2, by rw [g3]; exact hout⟩
    · intro es s1 hes hrun
      obtain ⟨g1, g2⟩ := run_busy es hes s s1 hb hrun
      exact ⟨g1, g2, toggleDetection_busy s1 g1⟩
  · intro hp r
    have h1 := hok.1
    have hb := hok.2 (by omega)
    have hz : s.cooldownPending = 0 := by omega
    have hnil : s.cooldowns = [] := List.length_eq_zero.mp hz
    have hne : s.togglePending ≠ 0 := by omega
    obtain ⟨g1, _, g3, g4⟩ :=
      toggleDetectionResume_toggleView { s with togglePending := s.togglePending - 1 } r
    have gc := toggleDetectionResume_cooldowns { s with togglePending := s.togglePending - 1 } r
    refine ⟨_, ?_, ?_, ?_, g4.trans hb, g3⟩
    · simp only [step, hne, if_false]
    · rw [g1]
      show s.togglePending - 1 = 0
      omega
    · rw [gc]
      show s.cooldowns ++ [s.config.buttonCooldown] = [1000]
      rw [hnil, hcd]
      rfl
  · intro e s1 hne hs
    by_cases hcf : e = Event.cooldownFire
    · subst hcf
      cases hcs : s.cooldowns with
      | nil => rw [step_cooldownFire_none s hcs] at hs; cases hs
      | cons d rest =>
        rw [step_cooldownFire s d rest hcs] at hs
        cases hs
        simp only [App.cooldownPending, hcs, List.length_cons,
          (cooldownCallback_facts { s with cooldowns := rest }).2.1]
        omega
    · by_cases h2 : e = Event.toggleDetection
      · subst h2
        simp only [step, Option.some.injEq] at hs
        subst hs
        simp only [App.cooldownPending, toggleDetection_cooldowns]
        exact le_refl _
      · have hv := step_toggleView s s1 e hcf h2 hne hs
        have g2 : s1.cooldownPending = s.cooldownPending :=
          congrArg ToggleView.cooldownPending hv
        rw [g2]
  · intro hp
    have h1 := hok.1
    have hb := hok.2 (by omega)
    cases hcs : s.cooldowns with
    | nil =>
      simp only [App.cooldownPending, hcs, List.length_nil] at hp
      omega
    | cons d rest =>
      simp only [App.cooldownPending, hcs, List.length_cons] at h1
      have hrest : rest = [] := List.length_eq_zero.mp (by omega)
      have htp : s.togglePending = 0 := by omega
      cases hel : s.elements.toggleDetection with
      | none => simp [toggleBusy, hel] at hb
      | some b =>
        have hd : b.disabled = true := by simpa [toggleBusy, hel] using hb
        obtain ⟨g1, g2, g3, g4, g5⟩ := cooldownCallback_facts { s with cooldowns := rest }
        have g5b : (cooldownCallback { s with cooldowns := rest }).elements.toggleDetection =
            some { b with disabled := false, writes := b.writes + 1 } := by
          rw [g5]
          show Option.map _ s.elements.toggleDetection = _
          rw [hel]
          rfl
        obtain ⟨s2, k1, k2, _, _, k5⟩ :=
          toggleDetection_start (cooldownCallback { s with cooldowns := rest }) _ g5b rfl
        refine ⟨_, b, step_cooldownFire s d rest hcs, rfl, hd, g5b, g4, ?_, ?_, s2, k1, k2, ?_⟩
        · rw [g1]; exact htp
        · rw [g2]; exact hrest
        · rw [k5, g3]

/-- Witness of C9: the state after the button was clicked once and the
response was handled, with the cooldown timeout pending. -/
theorem toggle_busy_guard_witness :
    ∃ s, run (create allPresent)
        [Event.toggleDetection, Event.toggleDone (ToggleResponse.http 200 (some true))] =
        some s ∧
    s.cooldowns = [1000] ∧
    (∀ b, s.elements.toggleDetection = some b → b.disabled = false →
      ∃ s1, toggleDetection s = Res.ok s1 ∧ toggleBusy s1 = true ∧
        s1.togglePending = 1 ∧ s1.cooldownPending = 0 ∧
        s1.toggleRequests = s.toggleRequests + 1) ∧
    (1 ≤ s.togglePending + s.cooldownPending →
      toggleBusy s = true ∧ toggleDetection s = Res.ok s ∧
      (1 ≤ s.togglePending → step s Event.cooldownFire = none) ∧
      (∀ e s1, e ≠ Event.cooldownFire → step s e = some s1 →
        toggleBusy s1 = true ∧ s1.toggleRequests = s.toggleRequests ∧
        1 ≤ s1.togglePending + s1.cooldownPending) ∧
      (∀ es s1, Event.cooldownFire ∉ es → run s es = some s1 →
        toggleBusy s1 = true ∧ s1.toggleRequests = s.toggleRequests ∧
        toggleDetection s1 = Res.ok s1)) ∧
    s.config.buttonCooldown = 1000 ∧
    (1 ≤ s.togglePending → ∀ r : ToggleResponse,
      ∃ s1, step s (Event.toggleDone r) = some s1 ∧ s1.togglePending = 0 ∧
        s1.cooldowns = [1000] ∧ toggleBusy s1 = true ∧
        s1.toggleRequests = s.toggleRequests) ∧
    (∀ e s1, (∀ r, e ≠ Event.toggleDone r) → step s e = some s1 →
      s1.cooldownPending ≤ s.cooldownPending) ∧
    (1 ≤ s.cooldownPending →
      ∃ s1 b, step s Event.cooldownFire = some s1 ∧
        s.elements.toggleDetection = some b ∧ b.disabled = true ∧
        s1.elements.toggleDetection =
          some { b with disabled := false, writes := b.writes + 1 } ∧
        toggleBusy s1 = false ∧ s1.togglePending = 0 ∧ s1.cooldowns = [] ∧
        ∃ s2, toggleDetection s1 = Res.ok s2 ∧ toggleBusy s2 = true ∧
          s2.toggleRequests = s.toggleRequests + 1) := by
  have hclick : Reachable allPresent (toggleDetection (create allPresent)).state :=
    Reachable.next Event.toggleDetection Reachable.start rfl
  obtain ⟨s, hstep, _, hcs, _⟩ :=
    (toggle_busy_guard allPresent _ hclick).2.2.2.1 (by decide)
      (ToggleResponse.http 200 (some true))
  refine ⟨s, ?_, hcs, toggle_busy_guard allPresent s
    (Reachable.next (Event.toggleDone (ToggleResponse.http 200 (some true))) hclick hstep)⟩
  show (match step (create allPresent) Event.toggleDetection with
    | some s1 => run s1 [Event.toggleDone (ToggleResponse.http 200 (some true))]
    | none => none) = some s
  simp only [step, run]
  simp only [step] at hstep
  rw [hstep]

/-! ## Restart on failure -/

theorem stopUpdates_requests (s : App) : requests (stopUpdates s) = requests s := by
  unfold stopUpdates clearInterval requests
  cases hu : s.updateInterval <;> cases hl : s.logsInterval <;>
    simp [truthyHandle] <;> (repeat (split <;> simp_all))

theorem startUpdates_requests (s : App) :
    requests (startUpdates s) =
      { framePending := s.framePending + 1, logsPending := s.logsPending + 1,
        frameRequests := s.frameRequests + 1, logsRequests := s.logsRequests + 1 } := by
  have h := stopUpdates_requests s
  simp only [requests, Requests.mk.injEq] at h ⊢
  obtain ⟨h1, h2, h3, h4⟩ := h
  simp [startUpdates, setInterval, updateFrame, updateLogs, h1, h2, h3, h4]

theorem setConnectionStatus_requests (s : App) (v : Bool) :
    requests (setConnectionStatus s v).state = requests s ∧
    (setConnectionStatus s v).state.config.logsUpdateInterval = s.config.logsUpdateInterval ∧
    (setConnectionStatus s v).state.elements.connectionStatus.isSome =
      s.elements.connectionStatus.isSome := by
  unfold setConnectionStatus requests
  cases hc : s.elements.connectionStatus <;> cases v <;> cases hi : s.isConnected <;>
    simp [Res.state, hc, hi]

theorem setConnectionStatus_false_ok (s : App)
    (h : s.isConnected = true → s.elements.connectionStatus.isSome = true) :
    ∃ s1, setConnectionStatus s false = Res.ok s1 := by
  unfold setConnectionStatus
  cases hi : s.isConnected with
  | false => simp
  | true =>
    have hsome := h hi
    cases hc : s.elements.connectionStatus with
    | none => rw [hc] at hsome; cases hsome
    | some el => simp [hc]

theorem handleConnectionError_logsRate (s : App) :
    (handleConnectionError s).config.logsUpdateInterval = s.config.logsUpdateInterval := by
  unfold handleConnectionError
  split
  · rw [(startUpdates_frame _).1]
  · rfl

theorem pollOk_congr {a b : App} (hc : a.config = b.config)
    (hi : a.isConnected = b.isConnected)
    (he : a.elements.connectionStatus = b.elements.connectionStatus) (hb : PollOk b) :
    PollOk a := by
  unfold PollOk
  rw [hc, hi, he]
  exact hb

theorem setConnectionStatus_true_indicator (x s1 : App)
    (hx : x.isConnected = true → x.elements.connectionStatus.isSome = true)
    (h1 : setConnectionStatus x true = Res.ok s1) :
    s1.elements.connectionStatus.isSome = true := by
  unfold setConnectionStatus at h1
  cases hc : x.elements.connectionStatus <;> cases hi : x.isConnected <;>
    simp [hc, hi] at h1
  · have := hx hi
    rw [hc] at this
    cases this
  · subst h1; rfl
  · subst h1; rw [hc]; rfl

theorem updateFrameTry_logsRate (s : App) (r : FrameResponse) :
    (updateFrameTry s r).state.config.logsUpdateInterval = s.config.logsUpdateInterval := by
  rcases frameResponse_cases r with hf | ⟨status, data, rfl, hs, he⟩
  · rw [updateFrameTry_failed s r hf]; rfl
  · cases hfr : truthyStr data.frame
    · rw [updateFrameTry_noFrame s status data hs he hfr]; rfl
    · rw [updateFrameTry_frame s status data hs he hfr]
      have hc := congrArg Core.config (showFrame_core s (data.frame.getD ""))
      cases hsf : showFrame s (data.frame.getD "") with
      | throw s1 =>
        rw [hsf] at hc
        simp only [core, Res.state] at hc ⊢
        rw [hc]
      | ok s1 =>
        rw [hsf] at hc
        simp only [core, Res.state] at hc
        simp only
        rw [(setConnectionStatus_requests _ true).2.1]
        have ha := congrArg Core.config (applyPayload_core s1 data)
        simp only [core] at ha
        rw [ha, hc]

theorem updateFrameCatch_facts (s : App) :
    (updateFrameCatch s).state.isConnected = false ∧
    (updateFrameCatch s).state.config.logsUpdateInterval = s.config.logsUpdateInterval := by
  obtain ⟨_, hi, _⟩ := setConnectionStatus_frame s false
  obtain ⟨_, hl, _⟩ := setConnectionStatus_requests s false
  unfold updateFrameCatch
  cases hr : setConnectionStatus s false with
  | throw s1 =>
    rw [hr] at hi hl
    exact ⟨hi, hl⟩
  | ok s1 =>
    rw [hr] at hi hl
    simp only [Res.state] at hi hl ⊢
    rw [(handleConnectionError_frame s1).1, handleConnectionError_logsRate]
    exact ⟨hi, hl⟩

theorem updateFrameResume_pollOk (s : App) (r : FrameResponse) (h : PollOk s) :
    PollOk (updateFrameResume s r).state := by
  have hl := updateFrameTry_logsRate s r
  unfold updateFrameResume
  cases ht : updateFrameTry s r with
  | throw s1 =>
    rw [ht] at hl
    simp only [Res.state] at hl
    obtain ⟨g1, g2⟩ := updateFrameCatch_facts s1
    refine ⟨by rw [g2, hl]; exact h.1, ?_⟩
    intro hcon
    rw [g1] at hcon
    cases hcon
  | ok s1 =>
    rw [ht] at hl
    simp only [Res.state] at hl ⊢
    refine ⟨by rw [hl]; exact h.1, ?_⟩
    rcases frameResponse_cases r with hf | ⟨status, data, rfl, hs, he⟩
    · rw [updateFrameTry_failed s r hf] at ht; cases ht
    · cases hfr : truthyStr data.frame
      · rw [updateFrameTry_noFrame s status data hs he hfr] at ht
        cases ht
        exact h.2
      · rw [updateFrameTry_frame s status data hs he hfr] at ht
        have hc := showFrame_core s (data.frame.getD "")
        cases hsf : showFrame s (data.frame.getD "") with
        | throw s2 => rw [hsf] at ht; cases ht
        | ok s2 =>
          rw [hsf] at hc ht
          simp only [Res.state] at hc
          simp only at ht
          have hcore : core (applyPayload s2 data) = core s :=
            (applyPayload_core s2 data).trans hc
          have hi : (applyPayload s2 data).isConnected = s.isConnected :=
            congrArg Core.isConnected hcore
          have hel : (applyPayload s2 data).elements.connectionStatus =
              s.elements.connectionStatus := congrArg Core.connectionStatus hcore
          intro _
          exact setConnectionStatus_true_indicator _ s1
            (by rw [hi, hel]; exact h.2) ht

theorem toggleDetection_indicator (s : App) :
    (toggleDetection s).state.elements.connectionStatus = s.elements.connectionStatus := by
  unfold toggleDetection
  cases s.elements.toggleDetection with
  | none => simp [Res.state]
  | some b => cases hb : b.disabled <;> simp [Res.state, hb]

theorem step_pollOk (s s1 : App) (e : Event) (h : PollOk s) (hs : step s e = some s1) :
    PollOk s1 := by
  cases e with
  | frameTick =>
    simp only [step] at hs
    split at hs
    · cases hs; exact h
    · cases hs
  | logsTick =>
    simp only [step] at hs
    split at hs
    · cases hs; exact h
    · cases hs
  | frameDone r =>
    simp only [step] at hs
    split at hs
    · cases hs
    · cases hs; exact updateFrameResume_pollOk _ r h
  | logsDone r =>
    simp only [step] at hs
    split at hs
    · cases hs
    · cases hs
      obtain ⟨_, hc, hi, he, _⟩ :=
        updateLogsResume_core { s with logsPending := s.logsPending - 1 } r
      exact pollOk_congr hc hi (by rw [he]) h
  | startUpdates =>
    cases hs
    obtain ⟨hc, hi, _, he, _⟩ := startUpdates_frame s
    exact pollOk_congr hc hi (by rw [he]) h
  | stopUpdates =>
    cases hs
    obtain ⟨hc, hi, _, he, _⟩ := stopUpdates_frame s
    exact pollOk_congr hc hi (by rw [he]) h
  | pauseUpdates =>
    cases hs
    obtain ⟨hc, hi, _, he, _⟩ := stopUpdates_frame s
    exact pollOk_congr hc hi (congrArg Elements.connectionStatus he) h
  | resumeUpdates =>
    cases hs
    obtain ⟨hc, hi, _, he, _⟩ := startUpdates_frame s
    exact pollOk_congr hc hi (congrArg Elements.connectionStatus he) h
  | toggleDetection =>
    cases hs
    obtain ⟨_, hc, hi⟩ := toggleDetection_core s
    exact pollOk_congr hc hi (toggleDetection_indicator s) h
  | toggleDone r =>
    simp only [step] at hs
    split at hs
    · cases hs
    · cases hs
      obtain ⟨_, hc, hi, he⟩ :=
        toggleDetectionResume_core { s with togglePending := s.togglePending - 1 } r
      exact pollOk_congr hc hi (by rw [he]) h
  | cooldownFire =>
    simp only [step] at hs
    split at hs
    · cases hs
    · cases hs; exact h
  | forceUpdate => cases hs; exact h

theorem create_pollOk (els : Elements) : PollOk (create els) := by
  obtain ⟨hc, hi, _, he, _⟩ := startUpdates_frame (fresh els)
  apply pollOk_congr hc hi (by rw [he])
  refine ⟨rfl, ?_⟩
  intro hcon
  cases hcon

theorem reachable_pollOk (els : Elements) (s : App) (h : Reachable els s) : PollOk s := by
  induction h with
  | start => exact create_pollOk els
  | next e _ hs ih => exact step_pollOk _ _ e ih hs

theorem updateFrameResume_failed_restart (s : App) (r : FrameResponse)
    (hf : r.failed = true)
    (hi : s.isConnected = true → s.elements.connectionStatus.isSome = true) :
    ∃ s0, updateFrameResume s r = Res.ok (startUpdates s0) ∧
      s0.config.frameUpdateInterval = min (s.config.frameUpdateInterval * 1.5) 5000 ∧
      s0.config.logsUpdateInterval = s.config.logsUpdateInterval ∧
      sched s0 = sched s ∧ requests s0 = requests s := by
  obtain ⟨s1, h1⟩ := setConnectionStatus_false_ok s hi
  obtain ⟨hsch, hcon, _⟩ := setConnectionStatus_frame s false
  obtain ⟨hreq, _, _⟩ := setConnectionStatus_requests s false
  have hcfg := setConnectionStatus_false_config s
  rw [h1] at hsch hcon hreq hcfg
  simp only [Res.state] at hsch hcon hreq hcfg
  refine ⟨{ s1 with config := { s1.config with
      frameUpdateInterval := min (s1.config.frameUpdateInterval * 1.5) 5000 } }, ?_, ?_, ?_, ?_, ?_⟩
  · unfold updateFrameResume
    rw [updateFrameTry_failed s r hf]
    simp only [updateFrameCatch, h1]
    rw [handleConnectionError_disconnected s1 hcon]
  · show min (s1.config.frameUpdateInterval * 1.5) 5000 = _
    rw [hcfg]
  · show s1.config.logsUpdateInterval = _
    rw [hcfg]
  · exact hsch
  · exact hreq

theorem startUpdates_general (s : App) :
    (startUpdates s).updateInterval = some s.nextHandle ∧
    (startUpdates s).logsInterval = some (s.nextHandle + 1) ∧
    (startUpdates s).timers = (stopUpdates s).timers ++
      [{ id := s.nextHandle, period := s.config.frameUpdateInterval, task := PollTask.frame },
       { id := s.nextHandle + 1, period := s.config.logsUpdateInterval,
         task := PollTask.logs }] := by
  obtain ⟨hc, _, _, _, _, _, _, hn⟩ := stopUpdates_frame s
  simp [startUpdates, setInterval, updateFrame, updateLogs, hc, hn]

theorem stopUpdates_timers_congr {a b : App} (h : sched a = sched b) :
    (stopUpdates a).timers = (stopUpdates b).timers := by
  have h1 : a.timers = b.timers := congrArg Sched.timers h
  have h2 : a.updateInterval = b.updateInterval := congrArg Sched.updateInterval h
  have h3 : a.logsInterval = b.logsInterval := congrArg Sched.logsInterval h
  unfold stopUpdates clearInterval
  rw [h2, h3]
  cases hu : b.updateInterval <;> cases hl : b.logsInterval <;>
    simp [truthyHandle, h1, h3, hl] <;> (repeat (split <;> simp_all))

theorem reachable_failure_restart (els : Elements) (s : App) (hr : Reachable els s)
    (hp : 1 ≤ s.framePending) (r : FrameResponse) (hf : r.failed = true) :
    ∃ s0 s1, updateFrameResume { s with framePending := s.framePending - 1 } r = Res.ok s1 ∧
      step s (Event.frameDone r) = some s1 ∧
      s1 = startUpdates s0 ∧
      s0.config.frameUpdateInterval = min (s.config.frameUpdateInterval * 1.5) 5000 ∧
      s1.config.frameUpdateInterval = min (s.config.frameUpdateInterval * 1.5) 5000 ∧
      s1.updateInterval = some s.nextHandle ∧ s1.logsInterval = some (s.nextHandle + 1) ∧
      s1.timers =
        [{ id := s.nextHandle, period := min (s.config.frameUpdateInterval * 1.5) 5000,
           task := PollTask.frame },
         { id := s.nextHandle + 1, period := 2000, task := PollTask.logs }] ∧
      (∀ t ∈ s.timers, t.id < s.nextHandle) ∧
      s1.frameRequests = s.frameRequests + 1 ∧ s1.logsRequests = s.logsRequests + 1 ∧
      s1.framePending = s.framePending ∧ s1.logsPending = s.logsPending + 1 := by
  have hpoll := reachable_pollOk els s hr
  have htim := reachable_timersOk els s hr
  obtain ⟨s0, h0, hx, hl, hsch, hreq⟩ :=
    updateFrameResume_failed_restart { s with framePending := s.framePending - 1 } r hf hpoll.2
  have hne : s.framePending ≠ 0 := by omega
  have ht0 : TimersOk s0 := timersOk_congr hsch htim
  have hs1 := startUpdates_sched s0 ht0
  have hr1 := startUpdates_requests s0
  have hn : s0.nextHandle = s.nextHandle := congrArg Sched.nextHandle hsch
  have q1 : s0.framePending = s.framePending - 1 := congrArg Requests.framePending hreq
  have q2 : s0.logsPending = s.logsPending := congrArg Requests.logsPending hreq
  have q3 : s0.frameRequests = s.frameRequests := congrArg Requests.frameRequests hreq
  have q4 : s0.logsRequests = s.logsRequests := congrArg Requests.logsRequests hreq
  have hl2 : s0.config.logsUpdateInterval = 2000 := hl.trans hpoll.1
  have hx0 : s0.config.frameUpdateInterval = min (s.config.frameUpdateInterval * 1.5) 5000 := hx
  refine ⟨s0, startUpdates s0, h0, ?_, rfl, hx0, ?_, ?_, ?_, ?_, ?_, ?_, ?_, ?_, ?_⟩
  · simp only [step, hne, if_false, h0, Res.state]
  · rw [(startUpdates_frame s0).1]; exact hx0
  · have := congrArg Sched.updateInterval hs1
    simp only [sched] at this
    rw [this, hn]
  · have := congrArg Sched.logsInterval hs1
    simp only [sched] at this
    rw [this, hn]
  · have := congrArg Sched.timers hs1
    simp only [sched] at this
    rw [this, hn, hx0, hl2]
  · obtain ⟨_, h | ⟨a, p, q, _, hb, _, _, ht⟩⟩ := htim
    · rw [h.2.2]; intro t ht; cases ht
    · rw [ht]
      intro t hmem
      simp only [List.mem_cons, List.mem_singleton, List.not_mem_nil, or_false] at hmem
      rcases hmem with rfl | rfl
      · show a < s.nextHandle
        omega
      · show a + 1 < s.nextHandle
        omega
  · have := congrArg Requests.frameRequests hr1
    simp only [requests] at this
    rw [this, q3]
  · have := congrArg Requests.logsRequests hr1
    simp only [requests] at this
    rw [this, q4]
  · have := congrArg Requests.framePending hr1
    simp only [requests] at this
    rw [this, q1]
    omega
  · have := congrArg Requests.logsPending hr1
    simp only [requests] at this
    rw [this, q2]

/-- C11, counterexample. In a document without the `connectionStatus`
element, a direct call `setConnectionStatus(true)` throws after it has set
the flag. In that state a rejected fetch is not followed by a restart: the
`catch` block throws in `setConnectionStatus(false)` before
`handleConnectionError`, so the interval stays 100, the handles and timers
are those the constructor registered, and no request is sent. -/
theorem failure_restarts_polling_counterexample :
    FrameResponse.networkError.failed = true ∧
    (setConnectionStatus (create noIndicator) true).state.isConnected = true ∧
    (updateFrameResume (setConnectionStatus (create noIndicator) true).state
      FrameResponse.networkError).threw = true ∧
    (fun s : App => (s.config.frameUpdateInterval, s.updateInterval, s.logsInterval,
        s.timers.map (fun t => (t.id, t.period)), s.frameRequests, s.logsRequests))
      (updateFrameResume (setConnectionStatus (create noIndicator) true).state
        FrameResponse.networkError).state =
      (100, some 1, some 2, [(1, 100), (2, 2000)], 1, 1) ∧
    (fun s : App => (s.config.frameUpdateInterval, s.updateInterval, s.logsInterval,
        s.timers.map (fun t => (t.id, t.period)), s.frameRequests, s.logsRequests))
      (create noIndicator) =
      (100, some 1, some 2, [(1, 100), (2, 2000)], 1, 1) := by
  refine ⟨by decide, ?_, ?_, ?_, ?_⟩
  · simp [create, init, fresh, noIndicator, allPresent, startUpdates, stopUpdates,
      setInterval, clearInterval, updateFrame, updateLogs, setConnectionStatus,
      truthyHandle, Res.state]
  · simp [create, init, fresh, noIndicator, allPresent, startUpdates, stopUpdates,
      setInterval, clearInterval, updateFrame, updateLogs, updateFrameResume,
      updateFrameTry, updateFrameCatch, setConnectionStatus, truthyHandle, Res.state,
      Res.threw]
  · simp [create, init, fresh, noIndicator, allPresent, startUpdates, stopUpdates,
      setInterval, clearInterval, updateFrame, updateLogs, updateFrameResume,
      updateFrameTry, updateFrameCatch, setConnectionStatus, truthyHandle, Res.state]
  · simp [create, init, fresh, noIndicator, allPresent, startUpdates, stopUpdates,
      setInterval, clearInterval, updateFrame, updateLogs, truthyHandle]

/-- C11, amended. Failure re-arms and re-polls immediately, in every state
in which `isConnected` is false or the `connectionStatus` element exists:
processing a failed frame poll returns normally and ends in `startUpdates`,
run at the backed-off interval `min (interval * 1.5) 5000`; afterwards both
handles are fresh, the frame timer is registered with the new interval as
period and the logs timer with `config.logsUpdateInterval`, after whatever
`stopUpdates` left, and one more frame request and one more logs request
have been sent. Every reachable state with a frame poll in flight is such a
state; there the live timers are exactly these two, the logs period is 2000,
and no earlier timer has one of the new handles. -/
theorem failure_restarts_polling (s : App) (r : FrameResponse) (hf : r.failed = true) :
    ((s.isConnected = true → s.elements.connectionStatus.isSome = true) →
      ∃ s0 s1, updateFrameResume s r = Res.ok s1 ∧ s1 = startUpdates s0 ∧
        s0.config.frameUpdateInterval = min (s.config.frameUpdateInterval * 1.5) 5000 ∧
        s1.config.frameUpdateInterval = min (s.config.frameUpdateInterval * 1.5) 5000 ∧
        s1.config.logsUpdateInterval = s.config.logsUpdateInterval ∧
        s1.isConnected = false ∧
        s1.updateInterval = some s.nextHandle ∧ s1.logsInterval = some (s.nextHandle + 1) ∧
        s1.timers = (stopUpdates s).timers ++
          [{ id := s.nextHandle, period := min (s.config.frameUpdateInterval * 1.5) 5000,
             task := PollTask.frame },
           { id := s.nextHandle + 1, period := s.config.logsUpdateInterval,
             task := PollTask.logs }] ∧
        s1.frameRequests = s.frameRequests + 1 ∧ s1.logsRequests = s.logsRequests + 1 ∧
        s1.framePending = s.framePending + 1 ∧ s1.logsPending = s.logsPending + 1) ∧
    (∀ els, Reachable els s → 1 ≤ s.framePending →
      ∃ s0 s1, updateFrameResume { s with framePending := s.framePending - 1 } r = Res.ok s1 ∧
        step s (Event.frameDone r) = some s1 ∧
        s1 = startUpdates s0 ∧
        s0.config.frameUpdateInterval = min (s.config.frameUpdateInterval * 1.5) 5000 ∧
        s1.config.frameUpdateInterval = min (s.config.frameUpdateInterval * 1.5) 5000 ∧
        s1.updateInterval = some s.nextHandle ∧ s1.logsInterval = some (s.nextHandle + 1) ∧
        s1.timers =
          [{ id := s.nextHandle, period := min (s.config.frameUpdateInterval * 1.5) 5000,
             task := PollTask.frame },
           { id := s.nextHandle + 1, period := 2000, task := PollTask.logs }] ∧
        (∀ t ∈ s.timers, t.id < s.nextHandle) ∧
        s1.frameRequests = s.frameRequests + 1 ∧ s1.logsRequests = s.logsRequests + 1 ∧
        s1.framePending = s.framePending ∧ s1.logsPending = s.logsPending + 1) := by
  refine ⟨?_, fun els hr hp => reachable_failure_restart els s hr hp r hf⟩
  intro hi
  obtain ⟨s0, h0, hx, hl, hsch, hreq⟩ := updateFrameResume_failed_restart s r hf hi
  obtain ⟨g1, g2, g3⟩ := startUpdates_general s0
  have hr1 := startUpdates_requests s0
  have hn : s0.nextHandle = s.nextHandle := congrArg Sched.nextHandle hsch
  have q1 : s0.framePending = s.framePending := congrArg Requests.framePending hreq
  have q2 : s0.logsPending = s.logsPending := congrArg Requests.logsPending hreq
  have q3 : s0.frameRequests = s.frameRequests := congrArg Requests.frameRequests hreq
  have q4 : s0.logsRequests = s.logsRequests := congrArg Requests.logsRequests hreq
  have hcon : (startUpdates s0).isConnected = false := by
    have hres : (updateFrameResume s r).state.isConnected = false := by
      unfold updateFrameResume
      rw [updateFrameTry_failed s r hf]
      exact (updateFrameCatch_facts s).1
    rw [h0] at hres
    exact hres
  refine ⟨s0, startUpdates s0, h0, rfl, hx, ?_, ?_, hcon, ?_, ?_, ?_, ?_, ?_, ?_, ?_⟩
  · rw [(startUpdates_frame s0).1]; exact hx
  · rw [(startUpdates_frame s0).1]; exact hl
  · rw [g1, hn]
  · rw [g2, hn]
  · rw [g3, hn, hx, hl, stopUpdates_timers_congr hsch]
  · have := congrArg Requests.frameRequests hr1
    simp only [requests] at this
    rw [this, q3]
  · have := congrArg Requests.logsRequests hr1
    simp only [requests] at this
    rw [this, q4]
  · have := congrArg Requests.framePending hr1
    simp only [requests] at this
    rw [this, q1]
  · have := congrArg Requests.logsPending hr1
    simp only [requests] at this
    rw [this, q2]

/-- Witness of C11: the state after one failed poll (interval 150), a
reachable state with the next poll in flight, then an HTTP 500. -/
theorem failure_restarts_polling_witness :
    ∃ s, run (create allPresent) [Event.frameDone FrameResponse.networkError] = some s ∧
    s.config.frameUpdateInterval = 150 ∧
    (FrameResponse.http 500 none).failed = true ∧
    (∃ s0 s1, updateFrameResume s (FrameResponse.http 500 none) = Res.ok s1 ∧
        s1 = startUpdates s0 ∧
        s0.config.frameUpdateInterval = min (s.config.frameUpdateInterval * 1.5) 5000 ∧
        s1.config.frameUpdateInterval = min (s.config.frameUpdateInterval * 1.5) 5000 ∧
        s1.config.logsUpdateInterval = s.config.logsUpdateInterval ∧
        s1.isConnected = false ∧
        s1.updateInterval = some s.nextHandle ∧ s1.logsInterval = some (s.nextHandle + 1) ∧
        s1.timers = (stopUpdates s).timers ++
          [{ id := s.nextHandle, period := min (s.config.frameUpdateInterval * 1.5) 5000,
             task := PollTask.frame },
           { id := s.nextHandle + 1, period := s.config.logsUpdateInterval,
             task := PollTask.logs }] ∧
        s1.frameRequests = s.frameRequests + 1 ∧ s1.logsRequests = s.logsRequests + 1 ∧
        s1.framePending = s.framePending + 1 ∧ s1.logsPending = s.logsPending + 1) ∧
    (∃ s0 s1, updateFrameResume { s with framePending := s.framePending - 1 }
          (FrameResponse.http 500 none) = Res.ok s1 ∧
        step s (Event.frameDone (FrameResponse.http 500 none)) = some s1 ∧
        s1 = startUpdates s0 ∧
        s0.config.frameUpdateInterval = min (s.config.frameUpdateInterval * 1.5) 5000 ∧
        s1.config.frameUpdateInterval = min (s.config.frameUpdateInterval * 1.5) 5000 ∧
        s1.updateInterval = some s.nextHandle ∧ s1.logsInterval = some (s.nextHandle + 1) ∧
        s1.timers =
          [{ id := s.nextHandle, period := min (s.config.frameUpdateInterval * 1.5) 5000,
             task := PollTask.frame },
           { id := s.nextHandle + 1, period := 2000, task := PollTask.logs }] ∧
        (∀ t ∈ s.timers, t.id < s.nextHandle) ∧
        s1.frameRequests = s.frameRequests + 1 ∧ s1.logsRequests = s.logsRequests + 1 ∧
        s1.framePending = s.framePending ∧ s1.logsPending = s.logsPending + 1) := by
  obtain ⟨s, hrun, hc, hp, hx, _⟩ := one_failure allPresent
  have h := failure_restarts_polling s (FrameResponse.http 500 none) (by decide)
  exact ⟨s, hrun, hx, by decide,
    h.1 (fun hcon => by rw [hc] at hcon; cases hcon),
    h.2 allPresent (reachable_of_run allPresent _ _ s Reachable.start hrun) hp⟩

end HelmetDetectionApp
